import Mathlib

/-!
Verification development for the Neo4j graph-loading engine of the
RAG_ai4industry repository (src/services/neo4j_loader.py).

The Python loader is shallowly embedded as executable Lean functions:

* Python/JSON values are modelled by `JVal`.  To keep decidable equality
  derivable, arrays and objects are encoded as explicit cons-spines
  (`jarrNil`/`jarrCons`, `jobjNil`/`jobjCons`); the smart constructors
  `jlist` and `jdict` build them from Lean lists.  JSON objects produced by
  `json.load` have unique keys, and lookups take the first matching key.
* Python floats are modelled by `PyFloat`: finite values are exact
  rationals (all numeric literals appearing in the verified properties are
  exactly representable as IEEE doubles, so no rounding is modelled), plus
  the special values `inf`, `neginf` and `nan`.  `pyEqB` models Python
  `==` on floats, under which `nan` is not equal to itself.
* Exceptions are modelled by `Except PyErr`; `bool` participates in the
  `isinstance(x, (int, float))` check exactly as in Python (a `bool` is an
  `int`).
* The Neo4j store is modelled by `Graph`: nodes are identified by
  (label, key-value) as the Cypher `MERGE {key: $v}` clauses do, and
  relationships by (source, type, destination).  A `MATCH`/`MATCH`/`MERGE`
  relationship statement creates the relationship only when both endpoint
  nodes exist, otherwise it is a no-op, mirroring Cypher semantics.
* The filesystem, the JSON reader and the external Pixtral collaborator
  are abstracted into the structure `FS`; `glob.glob` is modelled as a
  function from the glob string to the list of matches in enumeration
  order.
-/

-- Decidable equality for `Except` results, used to evaluate the
-- embedding on concrete inputs.
deriving instance DecidableEq for Except

/-- Python exceptions raised by the loader. -/
inductive PyErr where
  | keyError (key : String)
  | typeError (msg : String)
  | attrError (msg : String)
  | valueError (msg : String)
  | otherError (msg : String)
deriving DecidableEq, Repr

/-- Model of a Python float: exact rational for finite values, plus the
IEEE special values.  Rounding of decimal literals is not modelled; every
numeric value exercised by the verified properties is exactly
representable. -/
inductive PyFloat where
  | finite (q : ℚ)
  | inf
  | neginf
  | nan
deriving DecidableEq, Repr

/-- Python `==` on floats: `nan` compares unequal to everything, including
itself. -/
def pyEqB : PyFloat → PyFloat → Bool
  | .finite a, .finite b => decide (a = b)
  | .inf, .inf => true
  | .neginf, .neginf => true
  | _, _ => false

/-- Model of Python/JSON values.  Arrays and objects are encoded as
cons-spines so that decidable equality can be derived; `jlist` and `jdict`
below build well-formed spines from Lean lists. -/
inductive JVal where
  | jnull
  | jbool (b : Bool)
  | jint (n : Int)
  | jfloat (f : PyFloat)
  | jstr (s : String)
  | jarrNil
  | jarrCons (hd : JVal) (tl : JVal)
  | jobjNil
  | jobjCons (key : String) (val : JVal) (tl : JVal)
deriving DecidableEq, Repr

/-- Build a JSON array value from a list. -/
def jlist (xs : List JVal) : JVal := xs.foldr JVal.jarrCons JVal.jarrNil

/-- Build a JSON object value from a key/value list. -/
def jdict (kvs : List (String × JVal)) : JVal :=
  kvs.foldr (fun kv t => JVal.jobjCons kv.1 kv.2 t) JVal.jobjNil

/-- Python `d[key]` on a value: returns the value stored under `key` in a
dict, raises `KeyError` when the key is absent, and `TypeError` when the
value is not a dict (e.g. `None`, a list or a string indexed by a
string). -/
def jGetItem : JVal → String → Except PyErr JVal
  | .jobjCons k v t, key => if k = key then .ok v else jGetItem t key
  | .jobjNil, key => .error (.keyError key)
  | _, _ => .error (.typeError "not subscriptable")

/-- Python `d.get(key, default)`: a dict returns the stored value or the
default; a non-dict value has no `get` attribute and raises
`AttributeError`. -/
def jGetAttrD : JVal → String → JVal → Except PyErr JVal
  | .jobjCons k v t, key, d => if k = key then .ok v else jGetAttrD t key d
  | .jobjNil, _, d => .ok d
  | _, _, _ => .error (.attrError "get")

/-- Python `for x in v`: lists iterate their elements, dicts their keys,
strings their characters; other values raise `TypeError`. -/
def jIterate : JVal → Except PyErr (List JVal)
  | .jarrNil => .ok []
  | .jarrCons h t =>
    match jIterate t with
    | .ok xs => .ok (h :: xs)
    | .error e => .error e
  | .jobjNil => .ok []
  | .jobjCons k _ t =>
    match jIterate t with
    | .ok xs => .ok (.jstr k :: xs)
    | .error e => .error e
  | .jstr s => .ok (s.data.map (fun c => JVal.jstr (String.mk [c])))
  | _ => .error (.typeError "not iterable")

/-- The `isinstance(x, (int, float))` check of `parse_revenue`; a Python
`bool` is an instance of `int`. -/
def isNumericJ : JVal → Bool
  | .jint _ => true
  | .jfloat _ => true
  | .jbool _ => true
  | _ => false

/-- Python `isinstance(x, str)`. -/
def isStrJ : JVal → Bool
  | .jstr _ => true
  | _ => false

/-- Python `float(x)` applied to a value that passed the numeric
`isinstance` check. -/
def floatOfNumeric : JVal → PyFloat
  | .jint n => .finite (n : ℚ)
  | .jfloat f => f
  | .jbool b => .finite (if b then 1 else 0)
  | _ => .finite 0

/-- ASCII whitespace stripped by Python's `str.strip`, `int` and `float`. -/
def isWsChar (c : Char) : Bool :=
  c = ' ' || c = '\t' || c = '\n' || c = '\r' || c = '\x0b' || c = '\x0c'

/-- Strip leading and trailing whitespace from a character list. -/
def stripWsL (cs : List Char) : List Char :=
  ((cs.dropWhile isWsChar).reverse.dropWhile isWsChar).reverse

/-- Scan a maximal run of decimal digits, allowing single underscores
between digits as Python numeric literals do.  Returns the accumulated
value, the number of digits consumed, and the remaining characters; an
underscore not followed by a digit invalidates the whole parse (`none`). -/
def scanDigits : Nat → Nat → List Char → Option (Nat × Nat × List Char)
  | acc, cnt, [] => some (acc, cnt, [])
  | acc, cnt, c :: cs =>
    if c.isDigit then scanDigits (acc * 10 + (c.toNat - 48)) (cnt + 1) cs
    else if c = '_' ∧ cnt ≠ 0 then
      match cs with
      | d :: cs2 =>
        if d.isDigit then scanDigits (acc * 10 + (d.toNat - 48)) (cnt + 1) cs2 else none
      | [] => none
    else some (acc, cnt, c :: cs)

/-- Digit run that must consume the whole remaining input and contain at
least one digit. -/
def pyNatCore (cs : List Char) : Option Nat :=
  match scanDigits 0 0 cs with
  | some (v, cnt, []) => if cnt ≠ 0 then some v else none
  | _ => none

/-- Python `int(s)` on the already-stripped character list: optional sign
followed by underscore-separated decimal digits. -/
def pyIntCore : List Char → Option Int
  | '+' :: cs => (pyNatCore cs).map Int.ofNat
  | '-' :: cs => (pyNatCore cs).map (fun n => -(n : Int))
  | cs => (pyNatCore cs).map Int.ofNat

/-- Python `int(s)` for base-10 strings (ASCII digits; unicode digits are
not modelled). -/
def pyIntParse (s : String) : Option Int :=
  pyIntCore (stripWsL s.data)

/-- Multiply a rational by a signed power of ten. -/
def applyExp (q : ℚ) (e : Int) : ℚ :=
  if 0 ≤ e then q * (10 : ℚ) ^ e.toNat else q / (10 : ℚ) ^ (-e).toNat

/-- Parse the optional exponent part of a float literal. -/
def pyFloatExp (mant : ℚ) : List Char → Option ℚ
  | [] => some mant
  | c :: cs =>
    if c = 'e' ∨ c = 'E' then
      let scs : Int × List Char :=
        match cs with
        | '+' :: t => (1, t)
        | '-' :: t => (-1, t)
        | t => (1, t)
      match scanDigits 0 0 scs.2 with
      | some (ev, ec, []) => if ec ≠ 0 then some (applyExp mant (scs.1 * ev)) else none
      | _ => none
    else none

/-- Parse the unsigned magnitude of a float literal:
`digits [. digits] [exponent]`, requiring at least one mantissa digit. -/
def pyFloatMagnitude (cs : List Char) : Option ℚ :=
  match scanDigits 0 0 cs with
  | none => none
  | some (ip, ic, r1) =>
    match r1 with
    | '.' :: r2 =>
      match scanDigits 0 0 r2 with
      | none => none
      | some (fp, fc, r3) =>
        if ic + fc = 0 then none
        else pyFloatExp ((ip : ℚ) + (fp : ℚ) / (10 : ℚ) ^ fc) r3
    | _ => if ic = 0 then none else pyFloatExp (ip : ℚ) r1

/-- Python `float(s)` on the stripped character list: optional sign, then
either `inf`/`infinity`/`nan` (case-insensitive) or a decimal literal. -/
def pyFloatCore (cs : List Char) : Option PyFloat :=
  let sgn : Bool × List Char :=
    match cs with
    | '+' :: t => (false, t)
    | '-' :: t => (true, t)
    | t => (false, t)
  let low := sgn.2.map Char.toLower
  if low = "inf".data ∨ low = "infinity".data then
    some (if sgn.1 then .neginf else .inf)
  else if low = "nan".data then some .nan
  else (pyFloatMagnitude sgn.2).map (fun q => .finite (if sgn.1 then -q else q))

/-- Python `float(s)` for strings (surrounding whitespace allowed). -/
def pyFloatParse (s : String) : Option PyFloat :=
  pyFloatCore (stripWsL s.data)

/-- The cleaning applied by `parse_revenue`:
`s.replace('€', '').replace(',', '').replace(' ', '').strip()`.
Replacing a single-character pattern by the empty string removes every
occurrence of that character. -/
def cleanRevenue (s : String) : String :=
  String.mk (stripWsL (((s.data.filter (fun c => c ≠ '€')).filter
    (fun c => c ≠ ',')).filter (fun c => c ≠ ' ')))

/-- Embedding of `Neo4jLoader.parse_revenue`: numbers (ints, floats and
bools, per `isinstance`) are converted with `float(x)`; strings are
cleaned of currency formatting and parsed, falling back to `0.0` when the
cleaned string is not a float literal (the bare `except` swallows the
`ValueError`); any other value reaches `revenue_str.replace(...)`, which
raises `AttributeError` before the `try` block is entered. -/
def parseRevenue : JVal → Except PyErr PyFloat
  | .jint n => .ok (.finite (n : ℚ))
  | .jfloat f => .ok f
  | .jbool b => .ok (.finite (if b then 1 else 0))
  | .jstr s =>
    match pyFloatParse (cleanRevenue s) with
    | some f => .ok f
    | none => .ok (.finite 0)
  | _ => .error (.attrError "replace")

/-- Python `s.split(" x")` at the character level: split on each
non-overlapping occurrence of the two-character separator, left to
right. -/
def splitOnSpaceX : List Char → List (List Char)
  | [] => [[]]
  | ' ' :: 'x' :: rest => [] :: splitOnSpaceX rest
  | c :: rest =>
    match splitOnSpaceX rest with
    | [] => [[c]]
    | h :: t => (c :: h) :: t

/-- Split a string value on `" x"`; a non-string has no `split` attribute
and raises `AttributeError`. -/
def jSplitX : JVal → Except PyErr (List String)
  | .jstr s => .ok ((splitOnSpaceX s.data).map String.mk)
  | _ => .error (.attrError "split")

/-- Python `str(x)` as used by the f-string building `sale_id`.  The
representation of containers and of non-integral floats is approximated
(no loader property depends on it); scalars are rendered as Python
does. -/
def pyStr : JVal → String
  | .jnull => "None"
  | .jbool b => if b then "True" else "False"
  | .jint n => toString n
  | .jfloat (.finite q) => if q.den = 1 then toString q.num ++ ".0" else toString q
  | .jfloat .inf => "inf"
  | .jfloat .neginf => "-inf"
  | .jfloat .nan => "nan"
  | .jstr s => s
  | _ => "object"

/-- The derived sale identifier: `f"{event_id}_{customer_type}"`. -/
def saleId (eid ct : String) : String := eid ++ "_" ++ ct

/-- The fixed customer-type enumeration iterated by `load_events`. -/
def custTypes : List String := ["particuliers", "entreprises", "collectivites"]

/-- Python `x > 0` as used on the unit count: numbers compare normally
(`bool` counts as 0/1, `inf > 0`, `nan > 0` is false); strings and other
values raise `TypeError` in Python 3. -/
def pyGtZeroB : JVal → Except PyErr Bool
  | .jint n => .ok (decide (0 < n))
  | .jfloat (.finite q) => .ok (decide (0 < q))
  | .jfloat .inf => .ok true
  | .jfloat .neginf => .ok false
  | .jfloat .nan => .ok false
  | .jbool b => .ok b
  | _ => .error (.typeError "unorderable")

/-- Python `os.path.basename` for the forward-slash paths the loader
uses. -/
def basename (p : String) : String :=
  String.mk (p.data.foldl (fun acc c => if c = '/' then [] else acc ++ [c]) [])

/-- A graph node: Cypher `MERGE (n:Label {key: $v})` identifies nodes by
label and key value; `keyProp` records which property is the uniqueness
key for the label. -/
structure GNode where
  label : String
  keyProp : String
  keyVal : JVal
  props : List (String × JVal)
deriving DecidableEq, Repr

/-- A typed relationship between two nodes, identified by its endpoints
(label and key value on each side) and its type. -/
structure GRel where
  srcLabel : String
  srcKey : JVal
  relType : String
  dstLabel : String
  dstKey : JVal
  props : List (String × JVal)
deriving DecidableEq, Repr

/-- The graph store. -/
structure Graph where
  nodes : List GNode
  rels : List GRel
deriving DecidableEq, Repr

/-- The empty graph. -/
def gEmpty : Graph := { nodes := [], rels := [] }

/-- Look up a property value by name. -/
def lookupProp (ps : List (String × JVal)) (k : String) : Option JVal :=
  (ps.find? (fun kv => decide (kv.1 = k))).map (fun kv => kv.2)

/-- Cypher `SET n.k = v`: overwrite the property if present, append it
otherwise. -/
def setProp (ps : List (String × JVal)) (k : String) (v : JVal) : List (String × JVal) :=
  if ps.any (fun kv => decide (kv.1 = k)) then
    ps.map (fun kv => if kv.1 = k then (k, v) else kv)
  else ps ++ [(k, v)]

/-- Apply a list of `SET` assignments left to right. -/
def setProps (ps news : List (String × JVal)) : List (String × JVal) :=
  news.foldl (fun acc kv => setProp acc kv.1 kv.2) ps

/-- Construct a node (used to state lemmas about `mergeNode`, whose
fresh-node branch builds exactly this record). -/
def mkNode (label keyProp : String) (keyVal : JVal) (props : List (String × JVal)) : GNode :=
  { label := label, keyProp := keyProp, keyVal := keyVal, props := props }

/-- Does this node match the given label and key value? -/
def nodeMatches (n : GNode) (label : String) (keyVal : JVal) : Bool :=
  decide (n.label = label) && decide (n.keyVal = keyVal)

/-- Is there a node with this label and key value? -/
def hasNodeB (g : Graph) (label : String) (keyVal : JVal) : Bool :=
  g.nodes.any (fun n => nodeMatches n label keyVal)

/-- Find the node with this label and key value. -/
def findNode (g : Graph) (label : String) (keyVal : JVal) : Option GNode :=
  g.nodes.find? (fun n => nodeMatches n label keyVal)

/-- Cypher `MERGE (n:Label {key: $v}) SET ...`: update the existing
node's properties, or create the node (key property plus the `SET`
assignments). -/
def mergeNode (g : Graph) (label keyProp : String) (keyVal : JVal)
    (props : List (String × JVal)) : Graph :=
  if hasNodeB g label keyVal then
    { g with nodes := g.nodes.map (fun n =>
        if nodeMatches n label keyVal then { n with props := setProps n.props props } else n) }
  else
    { g with nodes := g.nodes ++
        [{ label := label, keyProp := keyProp, keyVal := keyVal,
           props := setProps [(keyProp, keyVal)] props }] }

/-- Does this relationship match the given endpoints and type? -/
def relMatches (r : GRel) (sL : String) (sK : JVal) (t : String) (dL : String)
    (dK : JVal) : Bool :=
  decide (r.srcLabel = sL) && decide (r.srcKey = sK) && decide (r.relType = t) &&
    decide (r.dstLabel = dL) && decide (r.dstKey = dK)

/-- Find the relationship with these endpoints and type. -/
def findRel (g : Graph) (sL : String) (sK : JVal) (t : String) (dL : String)
    (dK : JVal) : Option GRel :=
  g.rels.find? (fun r => relMatches r sL sK t dL dK)

/-- A `MATCH (a) MATCH (b) MERGE (a)-[r:T]->(b) [SET r...]` statement:
when both endpoint nodes exist, merge the relationship and apply the `SET`
assignments; when either endpoint is missing the `MATCH` yields no rows
and the statement is a no-op. -/
def mergeRelMM (g : Graph) (sL : String) (sK : JVal) (t : String)
    (props : List (String × JVal)) (dL : String) (dK : JVal) : Graph :=
  if hasNodeB g sL sK && hasNodeB g dL dK then
    if g.rels.any (fun r => relMatches r sL sK t dL dK) then
      { g with rels := g.rels.map (fun r =>
          if relMatches r sL sK t dL dK then { r with props := setProps r.props props } else r) }
    else
      { g with rels := g.rels ++
          [{ srcLabel := sL, srcKey := sK, relType := t, dstLabel := dL, dstKey := dK,
             props := setProps [] props }] }
  else g

/-- Number of nodes carrying a label. -/
def nodeCount (g : Graph) (label : String) : Nat :=
  (g.nodes.filter (fun n => decide (n.label = label))).length

/-- Number of relationships of a type. -/
def relCount (g : Graph) (t : String) : Nat :=
  (g.rels.filter (fun r => decide (r.relType = t))).length

/-- Number of `DISPLAYED_AT` relationships whose source key is the given
product id. -/
def displayedAtCount (g : Graph) (pid : JVal) : Nat :=
  (g.rels.filter (fun r => decide (r.relType = "DISPLAYED_AT") && decide (r.srcKey = pid))).length

/-- Every relationship's endpoints exist as nodes. -/
def endpointsOk (g : Graph) : Bool :=
  g.rels.all (fun r => hasNodeB g r.srcLabel r.srcKey && hasNodeB g r.dstLabel r.dstKey)

/-- The loader's environment: filesystem observations (`os.path.exists`,
`glob.glob`, reading and JSON-decoding a file), the external Pixtral
collaborator's response, and the server-side `datetime()` value. -/
structure FS where
  pathExists : String → Bool
  globMatches : String → List String
  readJson : String → Except PyErr JVal
  pixtralDocs : Except PyErr (List String)
  nowVal : JVal

/-- Embedding of `Neo4jLoader._find_file`: the default path if it exists,
otherwise the first `glob.glob(f"data/{pattern}")` match in enumeration
order, otherwise `None`. -/
def findFile (fs : FS) (defaultPath pattern : String) : Option String :=
  if fs.pathExists defaultPath then some defaultPath
  else
    match fs.globMatches ("data/" ++ pattern) with
    | [] => none
    | c :: _ => some c

/-- Embedding of `Neo4jLoader.clear_database`: `MATCH (n) DETACH DELETE n`
removes every node and relationship. -/
def clearDatabase (_g : Graph) : Graph := gEmpty

/-- Run a per-record loader over a list, stopping at (and propagating) the
first uncaught exception, with all earlier writes kept — Python's loop
semantics. -/
def loadList {α : Type} (f : α → Graph → Graph × Except PyErr Unit) :
    List α → Graph → Graph × Except PyErr Unit
  | [], g => (g, .ok ())
  | x :: xs, g =>
    match f x g with
    | (g1, .ok _) => loadList f xs g1
    | (g1, .error e) => (g1, .error e)

/-- Run a fallible extraction over a list, stopping at the first error. -/
def extractAllList {α : Type} (f : α → Except PyErr Unit) : List α → Except PyErr Unit
  | [] => .ok ()
  | x :: xs =>
    match f x with
    | .ok _ => extractAllList f xs
    | .error e => .error e

/-- The fields `load_products` reads from one product record, in the
evaluation order of the `session.run` keyword arguments. -/
structure ProductFields where
  product_id : JVal
  name : JVal
  category : JVal
  continuous_power : JVal
  peak_power : JVal
  battery_capacity : JVal
  battery_type : JVal
  solar_capacity : JVal
  total_cost : JVal
  avg_selling_price : JVal
  margin_percentage : JVal
  co2_reduction : JVal
  rental_available : JVal
deriving Repr

/-- Extract the required product fields; a missing key raises `KeyError`
(uncaught in the source), a non-dict intermediate raises `TypeError`. -/
def extractProduct (p : JVal) : Except PyErr ProductFields := do
  let pid ← jGetItem p "product_id"
  let nm ← jGetItem p "name"
  let cat ← jGetItem p "category"
  let po ← jGetItem p "power_output"
  let cont ← jGetItem po "continuous"
  let peak ← jGetItem po "peak"
  let specs ← jGetItem p "specifications"
  let bcap ← jGetItem specs "battery_capacity"
  let btype ← jGetItem specs "battery_type"
  let scap ← jGetItem specs "solar_panel_capacity"
  let pcb ← jGetItem p "private_cost_breakdown"
  let tcost ← jGetItem pcb "private_total_cost"
  let pricing ← jGetItem p "pricing"
  let asp ← jGetItem pricing "average_selling_price"
  let marg ← jGetItem pricing "margin_percentage"
  let co2 ← jGetItem p "co2_reduction"
  let rental ← jGetItem p "rental_available"
  pure { product_id := pid, name := nm, category := cat, continuous_power := cont,
         peak_power := peak, battery_capacity := bcap, battery_type := btype,
         solar_capacity := scap, total_cost := tcost, avg_selling_price := asp,
         margin_percentage := marg, co2_reduction := co2, rental_available := rental }

/-- The `SET` assignments of the Product node statement. -/
def productProps (f : ProductFields) : List (String × JVal) :=
  [("name", f.name), ("category", f.category), ("continuous_power", f.continuous_power),
   ("peak_power", f.peak_power), ("battery_capacity", f.battery_capacity),
   ("battery_type", f.battery_type), ("solar_capacity", f.solar_capacity),
   ("total_cost", f.total_cost), ("avg_selling_price", f.avg_selling_price),
   ("margin_percentage", f.margin_percentage), ("co2_reduction", f.co2_reduction),
   ("rental_available", f.rental_available)]

/-- Load one product record: merge the Product node, merge the BatteryType
node, and link them (`MATCH` on the just-created product). -/
def loadOneProduct (p : JVal) (g : Graph) : Graph × Except PyErr Unit :=
  match extractProduct p with
  | .error e => (g, .error e)
  | .ok f =>
    let g1 := mergeNode g "Product" "product_id" f.product_id (productProps f)
    let g2 := mergeNode g1 "BatteryType" "type" f.battery_type []
    (mergeRelMM g2 "Product" f.product_id "USES_BATTERY" [] "BatteryType" f.battery_type, .ok ())

/-- Embedding of `Neo4jLoader.load_products`: resolve the file (absence is
reported by returning `False`), read it (read/decode errors are caught and
reported as `False`), then load each record of `data.get("products", [])`;
a record-level error propagates uncaught. -/
def loadProducts (fs : FS) (g : Graph) : Graph × Except PyErr Bool :=
  match findFile fs "data/greenpower_products.json" "*product*.json" with
  | none => (g, .ok false)
  | some path =>
    match fs.readJson path with
    | .error _ => (g, .ok false)
    | .ok data =>
      match jGetAttrD data "products" (jlist []) with
      | .error e => (g, .error e)
      | .ok pv =>
        match jIterate pv with
        | .error e => (g, .error e)
        | .ok prods =>
          match loadList loadOneProduct prods g with
          | (g1, .ok _) => (g1, .ok true)
          | (g1, .error e) => (g1, .error e)

/-- The fields of the TradeShow node statement, in keyword evaluation
order (the total-sales string is normalized by `parse_revenue`). -/
structure TSHeader where
  event_id : JVal
  name : JVal
  typ : JVal
  location : JVal
  date : JVal
  leads : JVal
  totalSales : PyFloat
deriving Repr

/-- Extract the TradeShow node fields. -/
def extractTSHeader (e : JVal) : Except PyErr TSHeader := do
  let eid ← jGetItem e "event_id"
  let nm ← jGetItem e "event_name"
  let ty ← jGetItem e "type"
  let loc ← jGetItem e "location"
  let dt ← jGetItem e "date"
  let sd ← jGetItem e "sales_data"
  let leads ← jGetItem sd "leads_generated"
  let tsRaw ← jGetItem sd "total_sales"
  let ts ← parseRevenue tsRaw
  pure { event_id := eid, name := nm, typ := ty, location := loc, date := dt,
         leads := leads, totalSales := ts }

/-- The `SET` assignments of the TradeShow node statement. -/
def tsProps (h : TSHeader) : List (String × JVal) :=
  [("name", h.name), ("type", h.typ), ("location", h.location), ("date", h.date),
   ("leads_generated", h.leads), ("total_sales", .jfloat h.totalSales)]

/-- `event["greenpower_participation"].get("models_displayed", [])`,
iterated. -/
def extractDisplayed (e : JVal) : Except PyErr (List JVal) := do
  let gp ← jGetItem e "greenpower_participation"
  let md ← jGetAttrD gp "models_displayed" (jlist [])
  jIterate md

/-- Process one product-quantity shorthand string under a sale: split on
`" x"`; exactly two parts mean `int(parts[1])` (raising `ValueError` on a
non-integer) followed by the Sale→Product `INCLUDES_PRODUCT` merge; any
other number of parts is silently skipped. -/
def processSaleProduct (saleKey : JVal) (item : JVal) (g : Graph) :
    Graph × Except PyErr Unit :=
  match jSplitX item with
  | .error e => (g, .error e)
  | .ok [pid, qs] =>
    match pyIntParse qs with
    | none => (g, .error (.valueError qs))
    | some q =>
      (mergeRelMM g "Sale" saleKey "INCLUDES_PRODUCT" [("quantity", .jint q)]
        "Product" (.jstr pid), .ok ())
  | .ok _ => (g, .ok ())

/-- Process one customer type of a trade show:
`sales = event["sales_data"]["sales_closed"].get(ct, {})`; when
`sales.get("units", 0) > 0`, merge the Sale node (id
`f"{event_id}_{ct}"`), link it to the trade show, then process each entry
of `sales.get("products", [])`. -/
def processOneCT (e : JVal) (eid : JVal) (ct : String) (g : Graph) :
    Graph × Except PyErr Unit :=
  match jGetItem e "sales_data" with
  | .error err => (g, .error err)
  | .ok sd =>
  match jGetItem sd "sales_closed" with
  | .error err => (g, .error err)
  | .ok sc =>
  match jGetAttrD sc ct (jdict []) with
  | .error err => (g, .error err)
  | .ok sales =>
  match jGetAttrD sales "units" (.jint 0) with
  | .error err => (g, .error err)
  | .ok u0 =>
  match pyGtZeroB u0 with
  | .error err => (g, .error err)
  | .ok false => (g, .ok ())
  | .ok true =>
    match jGetItem sales "units" with
    | .error err => (g, .error err)
    | .ok u =>
    match jGetItem sales "total_revenue" with
    | .error err => (g, .error err)
    | .ok trRaw =>
    match parseRevenue trRaw with
    | .error err => (g, .error err)
    | .ok tr =>
      let sid : JVal := .jstr (saleId (pyStr eid) ct)
      let g1 := mergeNode g "Sale" "sale_id" sid
        [("customer_type", .jstr ct), ("units", u), ("total_revenue", .jfloat tr)]
      let g2 := mergeRelMM g1 "Sale" sid "SOLD_AT" [] "TradeShow" eid
      match jGetAttrD sales "products" (jlist []) with
      | .error err => (g2, .error err)
      | .ok pv =>
      match jIterate pv with
      | .error err => (g2, .error err)
      | .ok items => loadList (processSaleProduct sid) items g2

/-- Load one trade-show record: merge the TradeShow node, link each
displayed product (`MATCH` on both endpoints: a missing Product makes the
statement a no-op), then process the three customer types. -/
def loadTradeShow (e : JVal) (g : Graph) : Graph × Except PyErr Unit :=
  match extractTSHeader e with
  | .error err => (g, .error err)
  | .ok h =>
    let g1 := mergeNode g "TradeShow" "event_id" h.event_id (tsProps h)
    match extractDisplayed e with
    | .error err => (g1, .error err)
    | .ok pids =>
      let g2 := pids.foldl (fun acc pid =>
        mergeRelMM acc "Product" pid "DISPLAYED_AT" [] "TradeShow" h.event_id) g1
      loadList (processOneCT e h.event_id) custTypes g2

/-- The fields of the powered-Event node statement, in keyword evaluation
order (`attendees` defaults to `"N/A"` via `.get`). -/
structure PEHeader where
  event_id : JVal
  name : JVal
  typ : JVal
  location : JVal
  date : JVal
  attendees : JVal
  runtime : JVal
  fuel_saved : JVal
  co2_reduction : JVal
deriving Repr

/-- Extract the powered-Event node fields. -/
def extractPEHeader (e : JVal) : Except PyErr PEHeader := do
  let eid ← jGetItem e "event_id"
  let nm ← jGetItem e "event_name"
  let ty ← jGetItem e "type"
  let loc ← jGetItem e "location"
  let dt ← jGetItem e "date"
  let pd ← jGetItem e "power_deployment"
  let att ← jGetAttrD pd "attendees" (.jstr "N/A")
  let rt ← jGetItem pd "runtime"
  let fsv ← jGetItem pd "fuel_saved"
  let co2 ← jGetItem pd "co2_reduction"
  pure { event_id := eid, name := nm, typ := ty, location := loc, date := dt,
         attendees := att, runtime := rt, fuel_saved := fsv, co2_reduction := co2 }

/-- The `SET` assignments of the powered-Event node statement. -/
def peProps (h : PEHeader) : List (String × JVal) :=
  [("name", h.name), ("type", h.typ), ("location", h.location), ("date", h.date),
   ("attendees", h.attendees), ("runtime", h.runtime), ("fuel_saved", h.fuel_saved),
   ("co2_reduction", h.co2_reduction)]

/-- `event["power_deployment"]["models_used"]`, iterated. -/
def extractModelsUsed (e : JVal) : Except PyErr (List JVal) := do
  let pd ← jGetItem e "power_deployment"
  let ms ← jGetItem pd "models_used"
  jIterate ms

/-- Process one `models_used` entry of a powered event: two `" x"`-parts
merge `DEPLOYED_AT` with the parsed quantity (a non-integer second part
raises `ValueError`); any other number of parts treats the whole entry as
a bare product id with quantity 1. -/
def processModelStr (eid : JVal) (item : JVal) (g : Graph) : Graph × Except PyErr Unit :=
  match jSplitX item with
  | .error e => (g, .error e)
  | .ok [pid, qs] =>
    match pyIntParse qs with
    | none => (g, .error (.valueError qs))
    | some q =>
      (mergeRelMM g "Product" (.jstr pid) "DEPLOYED_AT" [("quantity", .jint q)]
        "Event" eid, .ok ())
  | .ok _ =>
    (mergeRelMM g "Product" item "DEPLOYED_AT" [("quantity", .jint 1)] "Event" eid, .ok ())

/-- Load one powered-event record. -/
def loadPoweredEvent (e : JVal) (g : Graph) : Graph × Except PyErr Unit :=
  match extractPEHeader e with
  | .error err => (g, .error err)
  | .ok h =>
    let g1 := mergeNode g "Event" "event_id" h.event_id (peProps h)
    match extractModelsUsed e with
    | .error err => (g1, .error err)
    | .ok ms => loadList (processModelStr h.event_id) ms g1

/-- Embedding of `Neo4jLoader.load_events`: trade shows first, then
powered events; file absence and read errors are caught (`False`),
record-level errors propagate. -/
def loadEvents (fs : FS) (g : Graph) : Graph × Except PyErr Bool :=
  match findFile fs "data/greenpower_events.json" "*event*.json" with
  | none => (g, .ok false)
  | some path =>
    match fs.readJson path with
    | .error _ => (g, .ok false)
    | .ok data =>
      match jGetAttrD data "trade_shows_exhibitions" (jlist []) with
      | .error e => (g, .error e)
      | .ok tsv =>
      match jIterate tsv with
      | .error e => (g, .error e)
      | .ok shows =>
      match loadList loadTradeShow shows g with
      | (g1, .error e) => (g1, .error e)
      | (g1, .ok _) =>
        match jGetAttrD data "powered_events" (jlist []) with
        | .error e => (g1, .error e)
        | .ok pev =>
        match jIterate pev with
        | .error e => (g1, .error e)
        | .ok pes =>
        match loadList loadPoweredEvent pes g1 with
        | (g2, .error e) => (g2, .error e)
        | (g2, .ok _) => (g2, .ok true)

/-- The fields of the RDProject node statement
(`projected_annual_savings` defaults to `"N/A"`). -/
structure RdHeader where
  project_id : JVal
  name : JVal
  status : JVal
  objective : JVal
  projected : JVal
deriving Repr

/-- Extract the RDProject node fields. -/
def extractRdHeader (p : JVal) : Except PyErr RdHeader := do
  let pid ← jGetItem p "project_id"
  let nm ← jGetItem p "project_name"
  let st ← jGetItem p "status"
  let ob ← jGetItem p "objective"
  let ps ← jGetAttrD p "projected_annual_savings" (.jstr "N/A")
  pure { project_id := pid, name := nm, status := st, objective := ob, projected := ps }

/-- `project.get("target_products", [])`, iterated. -/
def extractRdTargets (p : JVal) : Except PyErr (List JVal) := do
  let tp ← jGetAttrD p "target_products" (jlist [])
  jIterate tp

/-- Load one R&D project record: merge the node, then link each target
product (a missing Product endpoint makes the merge a no-op). -/
def loadOneRd (p : JVal) (g : Graph) : Graph × Except PyErr Unit :=
  match extractRdHeader p with
  | .error err => (g, .error err)
  | .ok h =>
    let g1 := mergeNode g "RDProject" "project_id" h.project_id
      [("name", h.name), ("status", h.status), ("objective", h.objective),
       ("projected_savings", h.projected)]
    match extractRdTargets p with
    | .error err => (g1, .error err)
    | .ok tps =>
      (tps.foldl (fun acc pid =>
        mergeRelMM acc "RDProject" h.project_id "TARGETS_PRODUCT" [] "Product" pid) g1,
       .ok ())

/-- Embedding of `Neo4jLoader.load_rd_projects`. -/
def loadRdProjects (fs : FS) (g : Graph) : Graph × Except PyErr Bool :=
  match findFile fs "data/greenpower_rd_innovations.json" "*rd*.json" with
  | none => (g, .ok false)
  | some path =>
    match fs.readJson path with
    | .error _ => (g, .ok false)
    | .ok data =>
      match jGetAttrD data "active_rd_projects" (jlist []) with
      | .error e => (g, .error e)
      | .ok pv =>
        match jIterate pv with
        | .error e => (g, .error e)
        | .ok projs =>
          match loadList loadOneRd projs g with
          | (g1, .ok _) => (g1, .ok true)
          | (g1, .error e) => (g1, .error e)

/-- Embedding of `Neo4jLoader.load_image`: `False` when the image file
does not exist; otherwise every exception of the Pixtral call is caught
(`False`), an empty analysis yields `False`, and a successful analysis
merges the Image node (description joined with newlines, `analyzed_at`
from the server-side `datetime()`). -/
def loadImage (fs : FS) (path : String) (g : Graph) : Graph × Except PyErr Bool :=
  if fs.pathExists path then
    match fs.pixtralDocs with
    | .error _ => (g, .ok false)
    | .ok docs =>
      if docs.isEmpty then (g, .ok false)
      else
        (mergeNode g "Image" "filename" (.jstr (basename path))
          [("description", .jstr (String.intercalate "\n" docs)),
           ("path", .jstr path), ("analyzed_at", fs.nowVal)], .ok true)
  else (g, .ok false)

/-- Embedding of `Neo4jLoader.load_all`: clear the graph, create the
indexes (no effect on graph content), then attempt the four category
loads in order, counting successes.  There is no try/except around the
four calls: an exception from any of them propagates out of `load_all`
and the remaining stages are not attempted. -/
def loadAll (fs : FS) (g : Graph) : Graph × Except PyErr Nat :=
  let g0 := clearDatabase g
  match loadProducts fs g0 with
  | (g1, .error e) => (g1, .error e)
  | (g1, .ok b1) =>
  match loadEvents fs g1 with
  | (g2, .error e) => (g2, .error e)
  | (g2, .ok b2) =>
  match loadRdProjects fs g2 with
  | (g3, .error e) => (g3, .error e)
  | (g3, .ok b3) =>
  match loadImage fs "data/exemple.jpg" g3 with
  | (g4, .error e) => (g4, .error e)
  | (g4, .ok b4) =>
    (g4, .ok ((if b1 then 1 else 0) + (if b2 then 1 else 0) +
              (if b3 then 1 else 0) + (if b4 then 1 else 0)))

/-- Forget the payload of a successful extraction. -/
def toUnitE {α : Type} : Except PyErr α → Except PyErr Unit
  | .ok _ => .ok ()
  | .error e => .error e

/-- The fallible steps of processing one quantity-shorthand entry (shared
by the sale-products loop and the powered-event models loop): the entry
must be a string, and a two-part split must have an integer second
part. -/
def extractShorthand (item : JVal) : Except PyErr Unit :=
  match jSplitX item with
  | .error e => .error e
  | .ok [_, qs] =>
    match pyIntParse qs with
    | none => .error (.valueError qs)
    | some _ => .ok ()
  | .ok _ => .ok ()

/-- The fallible steps of `processOneCT`, in execution order, without the
graph writes. -/
def extractOneCT (e : JVal) (ct : String) : Except PyErr Unit :=
  match jGetItem e "sales_data" with
  | .error err => .error err
  | .ok sd =>
  match jGetItem sd "sales_closed" with
  | .error err => .error err
  | .ok sc =>
  match jGetAttrD sc ct (jdict []) with
  | .error err => .error err
  | .ok sales =>
  match jGetAttrD sales "units" (.jint 0) with
  | .error err => .error err
  | .ok u0 =>
  match pyGtZeroB u0 with
  | .error err => .error err
  | .ok false => .ok ()
  | .ok true =>
    match jGetItem sales "units" with
    | .error err => .error err
    | .ok _ =>
    match jGetItem sales "total_revenue" with
    | .error err => .error err
    | .ok trRaw =>
    match parseRevenue trRaw with
    | .error err => .error err
    | .ok _ =>
      match jGetAttrD sales "products" (jlist []) with
      | .error err => .error err
      | .ok pv =>
      match jIterate pv with
      | .error err => .error err
      | .ok items => extractAllList extractShorthand items

/-- The fallible steps of `loadTradeShow`. -/
def extractTSUnit (e : JVal) : Except PyErr Unit :=
  match extractTSHeader e with
  | .error err => .error err
  | .ok _ =>
    match extractDisplayed e with
    | .error err => .error err
    | .ok _ => extractAllList (extractOneCT e) custTypes

/-- The fallible steps of `loadPoweredEvent`. -/
def extractPEUnit (e : JVal) : Except PyErr Unit :=
  match extractPEHeader e with
  | .error err => .error err
  | .ok _ =>
    match extractModelsUsed e with
    | .error err => .error err
    | .ok ms => extractAllList extractShorthand ms

/-- The fallible steps of `loadOneRd`. -/
def extractRdUnit (p : JVal) : Except PyErr Unit :=
  match extractRdHeader p with
  | .error err => .error err
  | .ok _ => toUnitE (extractRdTargets p)

/-- The fallible steps of the products stage on a decoded file. -/
def extractProductsData (data : JVal) : Except PyErr Unit :=
  match jGetAttrD data "products" (jlist []) with
  | .error e => .error e
  | .ok pv =>
    match jIterate pv with
    | .error e => .error e
    | .ok prods => extractAllList (fun p => toUnitE (extractProduct p)) prods

/-- The fallible steps of the events stage on a decoded file. -/
def extractEventsData (data : JVal) : Except PyErr Unit :=
  match jGetAttrD data "trade_shows_exhibitions" (jlist []) with
  | .error e => .error e
  | .ok tsv =>
  match jIterate tsv with
  | .error e => .error e
  | .ok shows =>
  match extractAllList extractTSUnit shows with
  | .error e => .error e
  | .ok _ =>
  match jGetAttrD data "powered_events" (jlist []) with
  | .error e => .error e
  | .ok pev =>
  match jIterate pev with
  | .error e => .error e
  | .ok pes => extractAllList extractPEUnit pes

/-- The fallible steps of the R&D stage on a decoded file. -/
def extractRdData (data : JVal) : Except PyErr Unit :=
  match jGetAttrD data "active_rd_projects" (jlist []) with
  | .error e => .error e
  | .ok pv =>
    match jIterate pv with
    | .error e => .error e
    | .ok projs => extractAllList extractRdUnit projs

/-- A category stage is mapper-level well-formed when its file is absent,
unreadable, or decodes to data on which every fallible record step
succeeds. -/
def wfStage (fs : FS) (defaultPath pattern : String)
    (ex : JVal → Except PyErr Unit) : Prop :=
  match findFile fs defaultPath pattern with
  | none => True
  | some path =>
    match fs.readJson path with
    | .error _ => True
    | .ok data => ex data = .ok ()

/-- The `sales.get("units", 0) > 0` test for a customer type, following
the source's lookup chain. -/
def extractUnitsFlag (e : JVal) (ct : String) : Except PyErr Bool :=
  match jGetItem e "sales_data" with
  | .error err => .error err
  | .ok sd =>
  match jGetItem sd "sales_closed" with
  | .error err => .error err
  | .ok sc =>
  match jGetAttrD sc ct (jdict []) with
  | .error err => .error err
  | .ok sales =>
  match jGetAttrD sales "units" (.jint 0) with
  | .error err => .error err
  | .ok u0 => pyGtZeroB u0

/-- Is the recorded unit count for this customer type greater than
zero? -/
def unitsPos (e : JVal) (ct : String) : Bool :=
  match extractUnitsFlag e ct with
  | .ok b => b
  | .error _ => false

/-- The displayed-products list of a trade-show record (empty when the
lookups fail). -/
def displayedOf (e : JVal) : List JVal :=
  match extractDisplayed e with
  | .ok l => l
  | .error _ => []

/-- A well-formed trade-show record used by concrete instances: one
displayed product, one customer type with positive units and one valid
product shorthand. -/
def tsRecW : JVal := jdict
  [("event_id", .jstr "EV1"), ("event_name", .jstr "Expo"), ("type", .jstr "salon"),
   ("location", .jstr "Paris"), ("date", .jstr "2024-03-01"),
   ("sales_data", jdict
     [("leads_generated", .jint 10), ("total_sales", .jstr "€911,750"),
      ("sales_closed", jdict
        [("particuliers", jdict
           [("units", .jint 2), ("total_revenue", .jint 5000),
            ("products", jlist [.jstr "PG-M01 x2"])])])]),
   ("greenpower_participation", jdict [("models_displayed", jlist [.jstr "PG-M01"])])]

/-- The TradeShow header extracted from `tsRecW`. -/
def tsHeaderW : TSHeader :=
  { event_id := .jstr "EV1", name := .jstr "Expo", typ := .jstr "salon",
    location := .jstr "Paris", date := .jstr "2024-03-01", leads := .jint 10,
    totalSales := .finite 911750 }

/-- A product record missing the required `product_id` key. -/
def prodRecBad : JVal := jdict [("name", .jstr "X")]

/-- Environment for the C1 counterexample: the products file exists but
holds a record with a missing required key; a well-formed events file is
also present. -/
def fsC1 : FS :=
  { pathExists := fun p => decide (p = "data/greenpower_products.json") ||
      decide (p = "data/greenpower_events.json")
  , globMatches := fun _ => []
  , readJson := fun p =>
      if p = "data/greenpower_products.json" then
        .ok (jdict [("products", jlist [prodRecBad])])
      else if p = "data/greenpower_events.json" then
        .ok (jdict [("trade_shows_exhibitions", jlist [tsRecW]),
                    ("powered_events", jlist [])])
      else .error (.otherError "io")
  , pixtralDocs := .error (.otherError "api")
  , nowVal := .jnull }

/-- Environment in which every data file is absent. -/
def fsAbsent : FS :=
  { pathExists := fun _ => false
  , globMatches := fun _ => []
  , readJson := fun _ => .error (.otherError "io")
  , pixtralDocs := .error (.otherError "api")
  , nowVal := .jnull }

/-- Environment whose default paths are absent but whose product glob has
two matches. -/
def fsGlob : FS :=
  { pathExists := fun _ => false
  , globMatches := fun p => if p = "data/*product*.json"
      then ["data/a_product.json", "data/b_product.json"] else []
  , readJson := fun _ => .error (.otherError "io")
  , pixtralDocs := .error (.otherError "api")
  , nowVal := .jnull }

/-- A trade-show record whose single sale lists the shorthand
`"PG-M01 xabc"`: it splits into two parts but the second is not an
integer. -/
def tsRecC5 : JVal := jdict
  [("event_id", .jstr "EV2"), ("event_name", .jstr "Foire"), ("type", .jstr "salon"),
   ("location", .jstr "Lyon"), ("date", .jstr "2024-05-01"),
   ("sales_data", jdict
     [("leads_generated", .jint 3), ("total_sales", .jint 1000),
      ("sales_closed", jdict
        [("particuliers", jdict
           [("units", .jint 1), ("total_revenue", .jint 1000),
            ("products", jlist [.jstr "PG-M01 xabc"])])])]),
   ("greenpower_participation", jdict [("models_displayed", jlist [])])]

/-- A powered-event record whose `models_used` entry `"PG-U01 xq"` splits
into two parts with a non-integer second part. -/
def peRecC6 : JVal := jdict
  [("event_id", .jstr "PE1"), ("event_name", .jstr "Festival"), ("type", .jstr "concert"),
   ("location", .jstr "Nantes"), ("date", .jstr "2024-07-01"),
   ("power_deployment", jdict
     [("attendees", .jint 500), ("runtime", .jstr "8h"), ("fuel_saved", .jstr "40L"),
      ("co2_reduction", .jstr "100kg"),
      ("models_used", jlist [.jstr "PG-U01 xq"])])]

/-- A graph holding one Product and one Event node, used to instantiate
relationship-creation statements. -/
def gProdEvent : Graph :=
  { nodes :=
      [{ label := "Product", keyProp := "product_id", keyVal := .jstr "PG-U01",
         props := [("product_id", .jstr "PG-U01")] },
       { label := "Event", keyProp := "event_id", keyVal := .jstr "PE1",
         props := [("event_id", .jstr "PE1")] }]
  , rels := [] }

/-! Generic list lemmas about the update-or-keep maps used by the merge
operations. -/

/-- Updating elements that satisfy `p` does not change whether some
element satisfies `q`, provided `upd` preserves `q`. -/
theorem any_map_update {α : Type} (p q : α → Bool) (upd : α → α)
    (hq : ∀ a, q (upd a) = q a) (l : List α) :
    (l.map (fun a => if p a then upd a else a)).any q = l.any q := by
  rw [List.any_map]
  have hqf : (q ∘ fun a => if p a then upd a else a) = q := by
    funext a
    by_cases h : p a <;> simp [h, hq]
  rw [hqf]

/-- Updating elements that satisfy `p` commutes with `find?` on `p`. -/
theorem find?_map_update {α : Type} (p : α → Bool) (upd : α → α)
    (hp : ∀ a, p (upd a) = p a) (l : List α) :
    (l.map (fun a => if p a then upd a else a)).find? p
      = (l.find? p).map (fun a => if p a then upd a else a) := by
  rw [List.find?_map]
  have hpf : (p ∘ fun a => if p a then upd a else a) = p := by
    funext a
    by_cases h : p a <;> simp [h, hp]
  rw [hpf]

/-- Elements satisfying `q` are untouched when `q` excludes `p`, so
`find? q` is unchanged by the update map. -/
theorem find?_map_update_ne {α : Type} (p q : α → Bool) (upd : α → α)
    (hq : ∀ a, q (upd a) = q a) (himp : ∀ a, q a = true → p a = false) (l : List α) :
    (l.map (fun a => if p a then upd a else a)).find? q = l.find? q := by
  rw [List.find?_map]
  have hqf : (q ∘ fun a => if p a then upd a else a) = q := by
    funext a
    by_cases h : p a <;> simp [h, hq]
  rw [hqf]
  cases hfind : l.find? q with
  | none => rfl
  | some a => simp [himp a (List.find?_some hfind)]

/-- The update map preserves the length of any filter by an
`upd`-preserved predicate. -/
theorem length_filter_map_update {α : Type} (p q : α → Bool) (upd : α → α)
    (hq : ∀ a, q (upd a) = q a) (l : List α) :
    ((l.map (fun a => if p a then upd a else a)).filter q).length = (l.filter q).length := by
  induction l with
  | nil => rfl
  | cons a t ih =>
    simp only [List.map_cons, List.filter_cons]
    have hqa : q (if p a then upd a else a) = q a := by
      by_cases h : p a <;> simp [h, hq]
    rw [hqa]
    cases q a <;> simp [ih]

/-! Lemmas about the merge operations. -/

/-- Relationship merges never change the node set. -/
theorem nodes_mergeRelMM (g : Graph) (sL : String) (sK : JVal) (t : String)
    (ps : List (String × JVal)) (dL : String) (dK : JVal) :
    (mergeRelMM g sL sK t ps dL dK).nodes = g.nodes := by
  unfold mergeRelMM
  split
  · split <;> rfl
  · rfl

/-- Node merges never change the relationship set. -/
theorem rels_mergeNode (g : Graph) (L k : String) (v : JVal) (ps : List (String × JVal)) :
    (mergeNode g L k v ps).rels = g.rels := by
  unfold mergeNode
  split <;> rfl

/-- Node presence after a node merge: the old presence, or exactly the
merged (label, key). -/
theorem hasNodeB_mergeNode (g : Graph) (L k : String) (v : JVal) (ps : List (String × JVal))
    (L2 : String) (v2 : JVal) :
    hasNodeB (mergeNode g L k v ps) L2 v2
      = (hasNodeB g L2 v2 || (decide (L2 = L) && decide (v2 = v))) := by
  unfold mergeNode
  split
  next hex =>
    show (g.nodes.map (fun n =>
        if nodeMatches n L v then { n with props := setProps n.props ps } else n)).any
        (fun n => nodeMatches n L2 v2) = _
    rw [any_map_update (fun n => nodeMatches n L v) (fun n => nodeMatches n L2 v2)
      (fun n => { n with props := setProps n.props ps }) (fun n => rfl) g.nodes]
    by_cases hL : L2 = L
    · by_cases hv : v2 = v
      · subst hL; subst hv
        unfold hasNodeB at hex
        simp [hex, hasNodeB]
      · simp [hv, hasNodeB]
    · simp [hL, hasNodeB]
  next hex =>
    show (g.nodes ++ [mkNode L k v (setProps [(k, v)] ps)]).any
        (fun n => nodeMatches n L2 v2) = _
    simp only [List.any_append, List.any_cons, List.any_nil, Bool.or_false]
    unfold hasNodeB
    congr 1
    simp [mkNode, nodeMatches, eq_comm]

/-- A node merge with a different label leaves presence unchanged. -/
theorem hasNodeB_mergeNode_ne_label (g : Graph) (L k : String) (v : JVal)
    (ps : List (String × JVal)) (L2 : String) (v2 : JVal) (h : L2 ≠ L) :
    hasNodeB (mergeNode g L k v ps) L2 v2 = hasNodeB g L2 v2 := by
  rw [hasNodeB_mergeNode]
  simp [h]

/-- Presence after a node merge implies presence before, or identity with
the merged node. -/
theorem hasNodeB_mergeNode_rev (g : Graph) (L k : String) (v : JVal)
    (ps : List (String × JVal)) (L2 : String) (v2 : JVal)
    (h : hasNodeB (mergeNode g L k v ps) L2 v2 = true) :
    hasNodeB g L2 v2 = true ∨ (L2 = L ∧ v2 = v) := by
  rw [hasNodeB_mergeNode] at h
  simp only [Bool.or_eq_true, Bool.and_eq_true, decide_eq_true_eq] at h
  exact h

/-- A node merge preserves existing presence. -/
theorem hasNodeB_mergeNode_mono (g : Graph) (L k : String) (v : JVal)
    (ps : List (String × JVal)) (L2 : String) (v2 : JVal)
    (h : hasNodeB g L2 v2 = true) :
    hasNodeB (mergeNode g L k v ps) L2 v2 = true := by
  rw [hasNodeB_mergeNode, h]
  rfl

/-- Relationship merges never change node presence. -/
theorem hasNodeB_mergeRelMM (g : Graph) (sL : String) (sK : JVal) (t : String)
    (ps : List (String × JVal)) (dL : String) (dK : JVal) (L : String) (v : JVal) :
    hasNodeB (mergeRelMM g sL sK t ps dL dK) L v = hasNodeB g L v := by
  unfold hasNodeB
  rw [nodes_mergeRelMM]

/-- Relationship merges never change node lookup. -/
theorem findNode_mergeRelMM (g : Graph) (sL : String) (sK : JVal) (t : String)
    (ps : List (String × JVal)) (dL : String) (dK : JVal) (L : String) (v : JVal) :
    findNode (mergeRelMM g sL sK t ps dL dK) L v = findNode g L v := by
  unfold findNode
  rw [nodes_mergeRelMM]

/-- A relationship merge with an absent source endpoint is a no-op. -/
theorem mergeRelMM_noop_src (g : Graph) (sL : String) (sK : JVal) (t : String)
    (ps : List (String × JVal)) (dL : String) (dK : JVal)
    (h : hasNodeB g sL sK = false) :
    mergeRelMM g sL sK t ps dL dK = g := by
  unfold mergeRelMM
  simp [h]

/-- A node merge with a different label leaves node lookup unchanged. -/
theorem findNode_mergeNode_ne_label (g : Graph) (L k : String) (v : JVal)
    (ps : List (String × JVal)) (L2 : String) (v2 : JVal) (h : L2 ≠ L) :
    findNode (mergeNode g L k v ps) L2 v2 = findNode g L2 v2 := by
  unfold mergeNode findNode
  split
  · show (g.nodes.map (fun n =>
        if nodeMatches n L v then { n with props := setProps n.props ps } else n)).find?
        (fun n => nodeMatches n L2 v2) = _
    exact find?_map_update_ne (fun n => nodeMatches n L v) (fun n => nodeMatches n L2 v2)
      (fun n => { n with props := setProps n.props ps }) (fun n => rfl)
      (fun n hn => by
        unfold nodeMatches at hn ⊢
        simp only [Bool.and_eq_true, decide_eq_true_eq] at hn
        simp [hn.1, h]) g.nodes
  · show (g.nodes ++ [mkNode L k v (setProps [(k, v)] ps)]).find?
        (fun n => nodeMatches n L2 v2) = _
    rw [List.find?_append]
    have hm : nodeMatches (mkNode L k v (setProps [(k, v)] ps)) L2 v2 = false := by
      have h1 : decide ((mkNode L k v (setProps [(k, v)] ps)).label = L2) = false := by
        simp only [mkNode, decide_eq_false_iff_not]
        exact fun hh => h hh.symm
      unfold nodeMatches
      rw [h1, Bool.false_and]
    have hnone : List.find? (fun n => nodeMatches n L2 v2)
        [mkNode L k v (setProps [(k, v)] ps)] = none := by
      simp only [List.find?, hm]
    rw [hnone]
    exact Option.or_none

/-- After a node merge, the merged (label, key) is present with the `SET`
assignments applied on top of some base property list. -/
theorem findNode_mergeNode_self (g : Graph) (L k : String) (v : JVal)
    (ps : List (String × JVal)) :
    ∃ n, findNode (mergeNode g L k v ps) L v = some n
      ∧ ∃ base, n.props = setProps base ps := by
  unfold mergeNode findNode
  split
  next hex =>
    show ∃ n, (g.nodes.map (fun n =>
        if nodeMatches n L v then { n with props := setProps n.props ps } else n)).find?
        (fun n => nodeMatches n L v) = some n ∧ ∃ base, n.props = setProps base ps
    rw [find?_map_update (fun n => nodeMatches n L v)
      (fun n => { n with props := setProps n.props ps }) (fun n => rfl) g.nodes]
    unfold hasNodeB at hex
    cases hf : g.nodes.find? (fun n => nodeMatches n L v) with
    | none =>
      rw [List.find?_eq_none] at hf
      rw [List.any_eq_true] at hex
      obtain ⟨x, hx, hpx⟩ := hex
      exact absurd hpx (hf x hx)
    | some n0 =>
      refine ⟨{ n0 with props := setProps n0.props ps }, ?_, n0.props, rfl⟩
      simp [List.find?_some hf]
  next hex =>
    unfold hasNodeB at hex
    simp only [Bool.not_eq_true] at hex
    show ∃ n, (g.nodes ++ [mkNode L k v (setProps [(k, v)] ps)]).find?
        (fun n => nodeMatches n L v) = some n ∧ ∃ base, n.props = setProps base ps
    rw [List.find?_append]
    have hnone : g.nodes.find? (fun n => nodeMatches n L v) = none := by
      rw [List.find?_eq_none]
      intro x hx
      have := (List.any_eq_false.mp hex) x hx
      simpa using this
    rw [hnone]
    refine ⟨mkNode L k v (setProps [(k, v)] ps), ?_, [(k, v)], rfl⟩
    have hm : nodeMatches (mkNode L k v (setProps [(k, v)] ps)) L v = true := by
      unfold mkNode nodeMatches
      simp
    simp only [List.find?, hm]
    rfl

/-! Lemmas about property lists. -/

/-- Setting a property then looking it up yields the set value. -/
theorem lookupProp_setProp_self (ps : List (String × JVal)) (k : String) (v : JVal) :
    lookupProp (setProp ps k v) k = some v := by
  unfold setProp
  split
  next hany =>
    unfold lookupProp
    have hgen : ∀ l : List (String × JVal), l.any (fun kv => decide (kv.1 = k)) = true →
        (l.map (fun kv => if kv.1 = k then (k, v) else kv)).find?
          (fun kv => decide (kv.1 = k)) = some (k, v) := by
      intro l
      induction l with
      | nil => intro hl; simp at hl
      | cons a t ih =>
        intro hl
        by_cases ha : a.1 = k
        · simp only [List.map_cons, if_pos ha]
          rw [List.find?_cons_of_pos _ (by simp)]
        · simp only [List.map_cons, if_neg ha]
          rw [List.find?_cons_of_neg _ (by simp [ha])]
          exact ih (by simpa [ha] using hl)
    rw [hgen ps hany]
    rfl
  next hany =>
    simp only [Bool.not_eq_true] at hany
    unfold lookupProp
    rw [List.find?_append]
    have hnone : ps.find? (fun kv => decide (kv.1 = k)) = none := by
      rw [List.find?_eq_none]
      intro x hx
      simpa using (List.any_eq_false.mp hany) x hx
    rw [hnone]
    simp [List.find?]

/-- Setting a property leaves lookups of other keys unchanged. -/
theorem lookupProp_setProp_other (ps : List (String × JVal)) (k : String) (v : JVal)
    (k2 : String) (h : k2 ≠ k) :
    lookupProp (setProp ps k v) k2 = lookupProp ps k2 := by
  unfold setProp
  split
  · unfold lookupProp
    have hgen : ∀ l : List (String × JVal),
        (l.map (fun kv => if kv.1 = k then (k, v) else kv)).find?
          (fun kv => decide (kv.1 = k2)) = l.find? (fun kv => decide (kv.1 = k2)) := by
      intro l
      induction l with
      | nil => rfl
      | cons a t ih =>
        by_cases ha : a.1 = k
        · simp only [List.map_cons, if_pos ha]
          rw [List.find?_cons_of_neg _
              (by simp only [decide_eq_true_eq]; exact fun hh => h hh.symm),
            List.find?_cons_of_neg _
              (by simp only [decide_eq_true_eq]; rw [ha]; exact fun hh => h hh.symm)]
          exact ih
        · simp only [List.map_cons, if_neg ha]
          by_cases ha2 : a.1 = k2
          · rw [List.find?_cons_of_pos _ (by simp [ha2]),
              List.find?_cons_of_pos _ (by simp [ha2])]
          · rw [List.find?_cons_of_neg _ (by simp [ha2]),
              List.find?_cons_of_neg _ (by simp [ha2])]
            exact ih
    rw [hgen ps]
  · unfold lookupProp
    rw [List.find?_append]
    have hone : List.find? (fun kv => decide (kv.1 = k2)) [(k, v)] = none := by
      have hd : decide ((k, v).1 = k2) = false := by
        simp only [decide_eq_false_iff_not]
        exact fun hh => h hh.symm
      simp [List.find?, hd]
    rw [hone]
    exact congrArg _ Option.or_none

/-! Lemmas about relationship lookup after a merge. -/

/-- Construct a relationship record. -/
def mkRel (sL : String) (sK : JVal) (t : String) (dL : String) (dK : JVal)
    (props : List (String × JVal)) : GRel :=
  { srcLabel := sL, srcKey := sK, relType := t, dstLabel := dL, dstKey := dK, props := props }

/-- After a relationship merge with both endpoints present, the
relationship is present with the `SET` assignments applied on top of some
base property list. -/
theorem findRel_mergeRelMM_self (g : Graph) (sL : String) (sK : JVal) (t : String)
    (ps : List (String × JVal)) (dL : String) (dK : JVal)
    (hs : hasNodeB g sL sK = true) (hd : hasNodeB g dL dK = true) :
    ∃ r, findRel (mergeRelMM g sL sK t ps dL dK) sL sK t dL dK = some r
      ∧ ∃ base, r.props = setProps base ps := by
  unfold mergeRelMM findRel
  rw [if_pos (by rw [hs, hd]; rfl)]
  split
  next hex =>
    show ∃ r, (g.rels.map (fun r =>
        if relMatches r sL sK t dL dK then { r with props := setProps r.props ps } else r)).find?
        (fun r => relMatches r sL sK t dL dK) = some r ∧ ∃ base, r.props = setProps base ps
    rw [find?_map_update (fun r => relMatches r sL sK t dL dK)
      (fun r => { r with props := setProps r.props ps }) (fun r => rfl) g.rels]
    cases hf : g.rels.find? (fun r => relMatches r sL sK t dL dK) with
    | none =>
      rw [List.find?_eq_none] at hf
      rw [List.any_eq_true] at hex
      obtain ⟨x, hx, hpx⟩ := hex
      exact absurd hpx (hf x hx)
    | some r0 =>
      refine ⟨{ r0 with props := setProps r0.props ps }, ?_, r0.props, rfl⟩
      simp [List.find?_some hf]
  next hex =>
    simp only [Bool.not_eq_true] at hex
    show ∃ r, (g.rels ++ [mkRel sL sK t dL dK (setProps [] ps)]).find?
        (fun r => relMatches r sL sK t dL dK) = some r ∧ ∃ base, r.props = setProps base ps
    rw [List.find?_append]
    have hnone : g.rels.find? (fun r => relMatches r sL sK t dL dK) = none := by
      rw [List.find?_eq_none]
      intro x hx
      simpa using (List.any_eq_false.mp hex) x hx
    rw [hnone]
    refine ⟨mkRel sL sK t dL dK (setProps [] ps), ?_, [], rfl⟩
    have hm : relMatches (mkRel sL sK t dL dK (setProps [] ps)) sL sK t dL dK = true := by
      unfold mkRel relMatches
      simp
    simp only [List.find?, hm]
    rfl

/-! Count lemmas. -/

/-- Node merges never change relationship counts by type. -/
theorem relCount_mergeNode (g : Graph) (L k : String) (v : JVal)
    (ps : List (String × JVal)) (t : String) :
    relCount (mergeNode g L k v ps) t = relCount g t := by
  unfold relCount
  rw [rels_mergeNode]

/-- Node merges never change the displayed-at count. -/
theorem displayedAtCount_mergeNode (g : Graph) (L k : String) (v : JVal)
    (ps : List (String × JVal)) (pid : JVal) :
    displayedAtCount (mergeNode g L k v ps) pid = displayedAtCount g pid := by
  unfold displayedAtCount
  rw [rels_mergeNode]

/-- A relationship merge of a different type or source key leaves the
displayed-at count of `pid` unchanged. -/
theorem displayedAtCount_mergeRelMM_ne (g : Graph) (sL : String) (sK : JVal) (t : String)
    (ps : List (String × JVal)) (dL : String) (dK : JVal) (pid : JVal)
    (h : t ≠ "DISPLAYED_AT" ∨ sK ≠ pid) :
    displayedAtCount (mergeRelMM g sL sK t ps dL dK) pid = displayedAtCount g pid := by
  unfold mergeRelMM displayedAtCount
  split
  · split
    · show ((g.rels.map (fun r =>
          if relMatches r sL sK t dL dK then { r with props := setProps r.props ps } else r)).filter
          (fun r => decide (r.relType = "DISPLAYED_AT") && decide (r.srcKey = pid))).length = _
      rw [length_filter_map_update (fun r => relMatches r sL sK t dL dK)
        (fun r => decide (r.relType = "DISPLAYED_AT") && decide (r.srcKey = pid))
        (fun r => { r with props := setProps r.props ps }) (fun r => rfl) g.rels]
    · show ((g.rels ++ [mkRel sL sK t dL dK (setProps [] ps)]).filter
          (fun r => decide (r.relType = "DISPLAYED_AT") && decide (r.srcKey = pid))).length = _
      rw [List.filter_append]
      have hnew : List.filter (fun r => decide (r.relType = "DISPLAYED_AT")
          && decide (r.srcKey = pid)) [mkRel sL sK t dL dK (setProps [] ps)] = [] := by
        have hf : (decide ((mkRel sL sK t dL dK (setProps [] ps)).relType = "DISPLAYED_AT")
            && decide ((mkRel sL sK t dL dK (setProps [] ps)).srcKey = pid)) = false := by
          rcases h with h | h <;> simp [mkRel, h]
        simp [List.filter, hf]
      rw [hnew, List.append_nil]
  · rfl

/-! Endpoint-existence invariant. -/

/-- A node merge preserves the endpoint invariant. -/
theorem endpointsOk_mergeNode (g : Graph) (L k : String) (v : JVal)
    (ps : List (String × JVal)) (h : endpointsOk g = true) :
    endpointsOk (mergeNode g L k v ps) = true := by
  unfold endpointsOk at h ⊢
  rw [List.all_eq_true] at h ⊢
  intro r hr
  rw [rels_mergeNode] at hr
  have hre := h r hr
  simp only [Bool.and_eq_true] at hre ⊢
  exact ⟨hasNodeB_mergeNode_mono _ _ _ _ _ _ _ hre.1,
    hasNodeB_mergeNode_mono _ _ _ _ _ _ _ hre.2⟩

/-- A relationship merge preserves the endpoint invariant: when the
statement fires, the guard has checked that both endpoints exist. -/
theorem endpointsOk_mergeRelMM (g : Graph) (sL : String) (sK : JVal) (t : String)
    (ps : List (String × JVal)) (dL : String) (dK : JVal) (h : endpointsOk g = true) :
    endpointsOk (mergeRelMM g sL sK t ps dL dK) = true := by
  unfold mergeRelMM
  split
  next hcond =>
    simp only [Bool.and_eq_true] at hcond
    split
    · unfold endpointsOk at h ⊢
      rw [List.all_eq_true] at h ⊢
      intro r hr
      simp only [List.mem_map] at hr
      obtain ⟨r0, hr0, hrr⟩ := hr
      have hre := h r0 hr0
      have hsame : (r.srcLabel = r0.srcLabel ∧ r.srcKey = r0.srcKey)
          ∧ r.dstLabel = r0.dstLabel ∧ r.dstKey = r0.dstKey := by
        subst hrr
        split <;> exact ⟨⟨rfl, rfl⟩, rfl, rfl⟩
      rw [hsame.1.1, hsame.1.2, hsame.2.1, hsame.2.2]
      exact hre
    · unfold endpointsOk at h ⊢
      rw [List.all_eq_true] at h ⊢
      intro r hr
      rw [List.mem_append] at hr
      rcases hr with hr | hr
      · exact h r hr
      · rw [List.mem_singleton] at hr
        subst hr
        simp only [Bool.and_eq_true]
        exact ⟨hcond.1, hcond.2⟩
  next => exact h

/-! List-processing lemmas. -/

/-- A graph property preserved by each step is preserved by the loop,
including across an aborting step. -/
theorem loadList_preserves {α : Type} (f : α → Graph → Graph × Except PyErr Unit)
    (P : Graph → Prop) (hf : ∀ x g, P g → P (f x g).1) :
    ∀ xs g, P g → P ((loadList f xs g).1) := by
  intro xs
  induction xs with
  | nil => intro g hg; exact hg
  | cons x t ih =>
    intro g hg
    unfold loadList
    have hstep := hf x g hg
    cases hfx : f x g with
    | mk g1 r =>
      rw [hfx] at hstep
      cases r with
      | ok u => exact ih g1 hstep
      | error e => exact hstep

/-- When every extraction step succeeds, the loop raises nothing. -/
theorem loadList_ok_of_extract {α : Type} (f : α → Graph → Graph × Except PyErr Unit)
    (fe : α → Except PyErr Unit)
    (hstep : ∀ x g, fe x = .ok () → (f x g).2 = .ok ()) :
    ∀ xs g, extractAllList fe xs = .ok () → (loadList f xs g).2 = .ok () := by
  intro xs
  induction xs with
  | nil => intro g _; rfl
  | cons x t ih =>
    intro g hex
    unfold extractAllList at hex
    unfold loadList
    cases hfe : fe x with
    | error e => rw [hfe] at hex; exact absurd hex (by simp)
    | ok u =>
      rw [hfe] at hex
      have h2 := hstep x g hfe
      cases hfx : f x g with
      | mk g1 r =>
        rw [hfx] at h2
        simp only at h2
        cases r with
        | error e => exact absurd h2 (by simp)
        | ok u2 => exact ih g1 hex

/-! Step lemmas: a record whose extraction mirror succeeds is loaded
without an exception. -/

/-- A product record with all required keys loads without raising. -/
theorem loadOneProduct_ok (p : JVal) (g : Graph)
    (h : toUnitE (extractProduct p) = .ok ()) :
    (loadOneProduct p g).2 = .ok () := by
  unfold loadOneProduct
  unfold toUnitE at h
  cases hx : extractProduct p with
  | error e => rw [hx] at h; simp at h
  | ok f => rfl

/-- A shorthand entry whose extraction succeeds is processed without
raising (sale-products loop). -/
theorem processSaleProduct_ok (sid item : JVal) (g : Graph)
    (h : extractShorthand item = .ok ()) :
    (processSaleProduct sid item g).2 = .ok () := by
  unfold processSaleProduct
  unfold extractShorthand at h
  cases hx : jSplitX item with
  | error e => rw [hx] at h; simp at h
  | ok parts =>
    rw [hx] at h
    match parts with
    | [] => rfl
    | [a] => rfl
    | [a, b] =>
      dsimp only at h ⊢
      cases hq : pyIntParse b with
      | none => rw [hq] at h; simp at h
      | some q => rw [hq] at h
    | a :: b :: c :: t => rfl

/-- A shorthand entry whose extraction succeeds is processed without
raising (powered-event models loop). -/
theorem processModelStr_ok (eid item : JVal) (g : Graph)
    (h : extractShorthand item = .ok ()) :
    (processModelStr eid item g).2 = .ok () := by
  unfold processModelStr
  unfold extractShorthand at h
  cases hx : jSplitX item with
  | error e => rw [hx] at h; simp at h
  | ok parts =>
    rw [hx] at h
    match parts with
    | [] => rfl
    | [a] => rfl
    | [a, b] =>
      dsimp only at h ⊢
      cases hq : pyIntParse b with
      | none => rw [hq] at h; simp at h
      | some q => rw [hq] at h
    | a :: b :: c :: t => rfl

/-- A customer type whose extraction mirror succeeds is processed without
raising. -/
theorem processOneCT_ok (e eid : JVal) (ct : String) (g : Graph)
    (h : extractOneCT e ct = .ok ()) :
    (processOneCT e eid ct g).2 = .ok () := by
  unfold processOneCT
  unfold extractOneCT at h
  cases h1 : jGetItem e "sales_data" with
  | error err => rw [h1] at h; simp at h
  | ok sd =>
  rw [h1] at h
  dsimp only at h ⊢
  cases h2 : jGetItem sd "sales_closed" with
  | error err => rw [h2] at h; simp at h
  | ok sc =>
  rw [h2] at h
  dsimp only at h ⊢
  cases h3 : jGetAttrD sc ct (jdict []) with
  | error err => rw [h3] at h; simp at h
  | ok sales =>
  rw [h3] at h
  dsimp only at h ⊢
  cases h4 : jGetAttrD sales "units" (.jint 0) with
  | error err => rw [h4] at h; simp at h
  | ok u0 =>
  rw [h4] at h
  dsimp only at h ⊢
  cases h5 : pyGtZeroB u0 with
  | error err => rw [h5] at h; simp at h
  | ok b =>
  rw [h5] at h
  try dsimp only at h ⊢
  cases b with
  | false => rfl
  | true =>
  try dsimp only at h ⊢
  cases h6 : jGetItem sales "units" with
  | error err => rw [h6] at h; simp at h
  | ok u =>
  rw [h6] at h
  dsimp only at h ⊢
  cases h7 : jGetItem sales "total_revenue" with
  | error err => rw [h7] at h; simp at h
  | ok trRaw =>
  rw [h7] at h
  dsimp only at h ⊢
  cases h8 : parseRevenue trRaw with
  | error err => rw [h8] at h; simp at h
  | ok tr =>
  rw [h8] at h
  dsimp only at h ⊢
  cases h9 : jGetAttrD sales "products" (jlist []) with
  | error err => rw [h9] at h; simp at h
  | ok pv =>
  rw [h9] at h
  dsimp only at h ⊢
  cases h10 : jIterate pv with
  | error err => rw [h10] at h; simp at h
  | ok items =>
  rw [h10] at h
  dsimp only at h ⊢
  exact loadList_ok_of_extract _ _ (fun x g2 hx => processSaleProduct_ok _ x g2 hx) items _ h

/-- A trade-show record whose extraction mirror succeeds loads without
raising. -/
theorem loadTradeShow_ok (e : JVal) (g : Graph)
    (h : extractTSUnit e = .ok ()) :
    (loadTradeShow e g).2 = .ok () := by
  unfold loadTradeShow
  unfold extractTSUnit at h
  cases h1 : extractTSHeader e with
  | error err => rw [h1] at h; simp at h
  | ok hd =>
  rw [h1] at h
  dsimp only at h ⊢
  cases h2 : extractDisplayed e with
  | error err => rw [h2] at h; simp at h
  | ok pids =>
  rw [h2] at h
  dsimp only at h ⊢
  exact loadList_ok_of_extract _ _ (fun ct g2 hx => processOneCT_ok e hd.event_id ct g2 hx)
    custTypes _ h

/-- A powered-event record whose extraction mirror succeeds loads without
raising. -/
theorem loadPoweredEvent_ok (e : JVal) (g : Graph)
    (h : extractPEUnit e = .ok ()) :
    (loadPoweredEvent e g).2 = .ok () := by
  unfold loadPoweredEvent
  unfold extractPEUnit at h
  cases h1 : extractPEHeader e with
  | error err => rw [h1] at h; simp at h
  | ok hd =>
  rw [h1] at h
  dsimp only at h ⊢
  cases h2 : extractModelsUsed e with
  | error err => rw [h2] at h; simp at h
  | ok ms =>
  rw [h2] at h
  dsimp only at h ⊢
  exact loadList_ok_of_extract _ _ (fun x g2 hx => processModelStr_ok hd.event_id x g2 hx) ms _ h

/-- An R&D record whose extraction mirror succeeds loads without
raising. -/
theorem loadOneRd_ok (p : JVal) (g : Graph)
    (h : extractRdUnit p = .ok ()) :
    (loadOneRd p g).2 = .ok () := by
  unfold loadOneRd
  unfold extractRdUnit at h
  cases h1 : extractRdHeader p with
  | error err => rw [h1] at h; simp at h
  | ok hd =>
  rw [h1] at h
  dsimp only at h ⊢
  unfold toUnitE at h
  cases h2 : extractRdTargets p with
  | error err => rw [h2] at h; simp at h
  | ok tps => rfl

/-! Stage-level lemmas: a mapper-level well-formed stage never raises. -/

/-- The products stage raises nothing when its file is absent, unreadable,
or record-wise well-formed. -/
theorem loadProducts_ok (fs : FS) (g : Graph)
    (h : wfStage fs "data/greenpower_products.json" "*product*.json" extractProductsData) :
    ∃ b, (loadProducts fs g).2 = .ok b := by
  unfold wfStage at h
  unfold loadProducts
  cases hf : findFile fs "data/greenpower_products.json" "*product*.json" with
  | none => exact ⟨false, rfl⟩
  | some path =>
  rw [hf] at h
  dsimp only at h ⊢
  cases hr : fs.readJson path with
  | error e => exact ⟨false, rfl⟩
  | ok data =>
  rw [hr] at h
  dsimp only at h ⊢
  unfold extractProductsData at h
  cases h1 : jGetAttrD data "products" (jlist []) with
  | error e => rw [h1] at h; simp at h
  | ok pv =>
  rw [h1] at h
  dsimp only at h ⊢
  cases h2 : jIterate pv with
  | error e => rw [h2] at h; simp at h
  | ok prods =>
  rw [h2] at h
  dsimp only at h ⊢
  have hok := loadList_ok_of_extract _ _ (fun x g2 hx => loadOneProduct_ok x g2 hx) prods g h
  cases hl : loadList loadOneProduct prods g with
  | mk g1 r =>
  rw [hl] at hok
  dsimp only at hok
  cases r with
  | error e => simp at hok
  | ok u => exact ⟨true, rfl⟩

/-- The events stage raises nothing when its file is absent, unreadable,
or record-wise well-formed. -/
theorem loadEvents_ok (fs : FS) (g : Graph)
    (h : wfStage fs "data/greenpower_events.json" "*event*.json" extractEventsData) :
    ∃ b, (loadEvents fs g).2 = .ok b := by
  unfold wfStage at h
  unfold loadEvents
  cases hf : findFile fs "data/greenpower_events.json" "*event*.json" with
  | none => exact ⟨false, rfl⟩
  | some path =>
  rw [hf] at h
  dsimp only at h ⊢
  cases hr : fs.readJson path with
  | error e => exact ⟨false, rfl⟩
  | ok data =>
  rw [hr] at h
  dsimp only at h ⊢
  unfold extractEventsData at h
  cases h1 : jGetAttrD data "trade_shows_exhibitions" (jlist []) with
  | error e => rw [h1] at h; simp at h
  | ok tsv =>
  rw [h1] at h
  dsimp only at h ⊢
  cases h2 : jIterate tsv with
  | error e => rw [h2] at h; simp at h
  | ok shows =>
  rw [h2] at h
  dsimp only at h ⊢
  cases h3 : extractAllList extractTSUnit shows with
  | error e => rw [h3] at h; simp at h
  | ok u3 =>
  rw [h3] at h
  dsimp only at h ⊢
  cases u3
  have hok1 := loadList_ok_of_extract _ _ (fun x g2 hx => loadTradeShow_ok x g2 hx) shows g h3
  cases hl1 : loadList loadTradeShow shows g with
  | mk g1 r1 =>
  rw [hl1] at hok1
  dsimp only at hok1
  cases r1 with
  | error e => simp at hok1
  | ok u1 =>
  dsimp only
  cases h4 : jGetAttrD data "powered_events" (jlist []) with
  | error e => rw [h4] at h; simp at h
  | ok pev =>
  rw [h4] at h
  dsimp only at h ⊢
  cases h5 : jIterate pev with
  | error e => rw [h5] at h; simp at h
  | ok pes =>
  rw [h5] at h
  dsimp only at h ⊢
  have hok2 := loadList_ok_of_extract _ _ (fun x g2 hx => loadPoweredEvent_ok x g2 hx) pes g1 h
  cases hl2 : loadList loadPoweredEvent pes g1 with
  | mk g2 r2 =>
  rw [hl2] at hok2
  dsimp only at hok2
  cases r2 with
  | error e => simp at hok2
  | ok u2 => exact ⟨true, rfl⟩

/-- The R&D stage raises nothing when its file is absent, unreadable, or
record-wise well-formed. -/
theorem loadRdProjects_ok (fs : FS) (g : Graph)
    (h : wfStage fs "data/greenpower_rd_innovations.json" "*rd*.json" extractRdData) :
    ∃ b, (loadRdProjects fs g).2 = .ok b := by
  unfold wfStage at h
  unfold loadRdProjects
  cases hf : findFile fs "data/greenpower_rd_innovations.json" "*rd*.json" with
  | none => exact ⟨false, rfl⟩
  | some path =>
  rw [hf] at h
  dsimp only at h ⊢
  cases hr : fs.readJson path with
  | error e => exact ⟨false, rfl⟩
  | ok data =>
  rw [hr] at h
  dsimp only at h ⊢
  unfold extractRdData at h
  cases h1 : jGetAttrD data "active_rd_projects" (jlist []) with
  | error e => rw [h1] at h; simp at h
  | ok pv =>
  rw [h1] at h
  dsimp only at h ⊢
  cases h2 : jIterate pv with
  | error e => rw [h2] at h; simp at h
  | ok projs =>
  rw [h2] at h
  dsimp only at h ⊢
  have hok := loadList_ok_of_extract _ _ (fun x g2 hx => loadOneRd_ok x g2 hx) projs g h
  cases hl : loadList loadOneRd projs g with
  | mk g1 r =>
  rw [hl] at hok
  dsimp only at hok
  cases r with
  | error e => simp at hok
  | ok u => exact ⟨true, rfl⟩

/-- The image stage never raises: every failure of the external
collaborator is caught inside `load_image`. -/
theorem loadImage_ok (fs : FS) (p : String) (g : Graph) :
    ∃ b, (loadImage fs p g).2 = .ok b := by
  unfold loadImage
  split
  · cases hd : fs.pixtralDocs with
    | error e => exact ⟨false, rfl⟩
    | ok docs =>
      dsimp only
      split
      · exact ⟨false, rfl⟩
      · exact ⟨true, rfl⟩
  · exact ⟨false, rfl⟩

/-- When every present data file is mapper-level well-formed, the whole
load completes with no exception escaping `load_all`. -/
theorem loadAll_ok (fs : FS) (g : Graph)
    (hp : wfStage fs "data/greenpower_products.json" "*product*.json" extractProductsData)
    (he : wfStage fs "data/greenpower_events.json" "*event*.json" extractEventsData)
    (hr : wfStage fs "data/greenpower_rd_innovations.json" "*rd*.json" extractRdData) :
    ∃ n, (loadAll fs g).2 = .ok n := by
  unfold loadAll
  dsimp only
  obtain ⟨b1, hb1⟩ := loadProducts_ok fs (clearDatabase g) hp
  cases hl1 : loadProducts fs (clearDatabase g) with
  | mk g1 r1 =>
  rw [hl1] at hb1
  dsimp only at hb1 ⊢
  cases r1 with
  | error e => simp at hb1
  | ok bb1 =>
  dsimp only
  obtain ⟨b2, hb2⟩ := loadEvents_ok fs g1 he
  cases hl2 : loadEvents fs g1 with
  | mk g2 r2 =>
  rw [hl2] at hb2
  dsimp only at hb2 ⊢
  cases r2 with
  | error e => simp at hb2
  | ok bb2 =>
  dsimp only
  obtain ⟨b3, hb3⟩ := loadRdProjects_ok fs g2 hr
  cases hl3 : loadRdProjects fs g2 with
  | mk g3 r3 =>
  rw [hl3] at hb3
  dsimp only at hb3 ⊢
  cases r3 with
  | error e => simp at hb3
  | ok bb3 =>
  dsimp only
  obtain ⟨b4, hb4⟩ := loadImage_ok fs "data/exemple.jpg" g3
  cases hl4 : loadImage fs "data/exemple.jpg" g3 with
  | mk g4 r4 =>
  rw [hl4] at hb4
  dsimp only at hb4 ⊢
  cases r4 with
  | error e => simp at hb4
  | ok bb4 => exact ⟨_, rfl⟩

/-! Claim theorems. -/

/-- C1 (counterexample): with the products file present but holding a
record that lacks the required `product_id` key, and a well-formed events
file also present, `load_all` raises the `KeyError` past its top level and
the events stage is never attempted (no TradeShow node is created), even
though the events record on its own loads fine.  This contradicts the
claim that mapper-level fatal errors are caught and do not block the
remaining stages. -/
theorem claim_C1_counterexample :
    (loadAll fsC1 gEmpty).2 = .error (.keyError "product_id")
    ∧ hasNodeB (loadAll fsC1 gEmpty).1 "TradeShow" (.jstr "EV1") = false
    ∧ (loadTradeShow tsRecW gEmpty).2 = .ok () := by
  refine ⟨by decide, by decide, by decide⟩

/-- C1 (amended): per-stage failures that are caught are exactly the
file-level ones — file absent or unreadable — and `load_image` catches
everything; under the amendment that every present data file is
mapper-level well-formed (all required keys present and shorthand
quantities parseable), `load_all` attempts all four stages and no
exception escapes it. -/
theorem claim_C1_stage_failures_caught (fs : FS) (g : Graph)
    (hp : wfStage fs "data/greenpower_products.json" "*product*.json" extractProductsData)
    (he : wfStage fs "data/greenpower_events.json" "*event*.json" extractEventsData)
    (hr : wfStage fs "data/greenpower_rd_innovations.json" "*rd*.json" extractRdData) :
    ∃ n, (loadAll fs g).2 = .ok n :=
  loadAll_ok fs g hp he hr

/-- C1 (witness): the amended theorem applied to the environment where
every data file is absent. -/
theorem claim_C1_witness :
    wfStage fsAbsent "data/greenpower_products.json" "*product*.json" extractProductsData
    ∧ wfStage fsAbsent "data/greenpower_events.json" "*event*.json" extractEventsData
    ∧ wfStage fsAbsent "data/greenpower_rd_innovations.json" "*rd*.json" extractRdData
    ∧ ∃ n, (loadAll fsAbsent gEmpty).2 = .ok n :=
  ⟨True.intro, True.intro, True.intro,
   claim_C1_stage_failures_caught fsAbsent gEmpty True.intro True.intro True.intro⟩

/-- C2: running the full load twice against the same environment yields
the same node counts per label and relationship counts per type as
running it once — `load_all` clears the whole graph first, so its result
is a function of the input files alone. -/
theorem claim_C2_reload_idempotent (fs : FS) (g : Graph) (label rType : String) :
    nodeCount (loadAll fs (loadAll fs g).1).1 label = nodeCount (loadAll fs g).1 label
    ∧ relCount (loadAll fs (loadAll fs g).1).1 rType = relCount (loadAll fs g).1 rType :=
  ⟨rfl, rfl⟩

/-- C4: `parse_revenue` returns `float(x)` for every numeric input (ints,
floats, and bools via `isinstance`), returns the parsed value of a
cleanable string, returns `0.0` without raising for every string that
does not parse after stripping currency formatting, and satisfies the
spec's concrete examples. -/
theorem claim_C4_parse_revenue :
    (∀ v : JVal, isNumericJ v = true → parseRevenue v = .ok (floatOfNumeric v))
    ∧ (∀ s : String, ∀ f : PyFloat, pyFloatParse (cleanRevenue s) = some f →
        parseRevenue (.jstr s) = .ok f)
    ∧ (∀ s : String, pyFloatParse (cleanRevenue s) = none →
        parseRevenue (.jstr s) = .ok (.finite 0))
    ∧ parseRevenue (.jstr "€911,750") = .ok (.finite 911750)
    ∧ parseRevenue (.jint 42) = .ok (.finite 42)
    ∧ parseRevenue (.jstr "not a number") = .ok (.finite 0) := by
  refine ⟨?_, ?_, ?_, by decide, by decide, by decide⟩
  · intro v hv
    cases v <;> simp_all [isNumericJ, parseRevenue, floatOfNumeric]
  · intro s f hf
    simp [parseRevenue, hf]
  · intro s hf
    simp [parseRevenue, hf]

/-- C4 (witness). -/
theorem claim_C4_witness :
    isNumericJ (.jint 7) = true ∧ parseRevenue (.jint 7) = .ok (floatOfNumeric (.jint 7))
    ∧ pyFloatParse (cleanRevenue "abc") = none ∧ parseRevenue (.jstr "abc") = .ok (.finite 0)
    ∧ pyFloatParse (cleanRevenue "12") = some (.finite 12)
    ∧ parseRevenue (.jstr "12") = .ok (.finite 12) :=
  ⟨rfl, claim_C4_parse_revenue.1 (.jint 7) rfl, by decide,
   claim_C4_parse_revenue.2.2.1 "abc" (by decide), by decide,
   claim_C4_parse_revenue.2.1 "12" (.finite 12) (by decide)⟩

/-- C8: the file resolver returns the default path when it exists;
otherwise the first glob match in enumeration order when any exist; its
result depends only on the relevant filesystem observations (so repeated
calls on an unchanged filesystem agree); with zero matches it returns
`none`, which `load_products` treats as the category being absent
(`False`), not as an error. -/
theorem claim_C8_find_file :
    (∀ fs : FS, ∀ d p : String, fs.pathExists d = true → findFile fs d p = some d)
    ∧ (∀ fs : FS, ∀ d p c : String, ∀ cs : List String, fs.pathExists d = false →
        fs.globMatches ("data/" ++ p) = c :: cs → findFile fs d p = some c)
    ∧ (∀ fs fs2 : FS, ∀ d p : String, fs.pathExists d = fs2.pathExists d →
        fs.globMatches ("data/" ++ p) = fs2.globMatches ("data/" ++ p) →
        findFile fs d p = findFile fs2 d p)
    ∧ (∀ fs : FS, ∀ d p : String, fs.pathExists d = false →
        fs.globMatches ("data/" ++ p) = [] → findFile fs d p = none)
    ∧ (∀ fs : FS, ∀ g : Graph, fs.pathExists "data/greenpower_products.json" = false →
        fs.globMatches "data/*product*.json" = [] → loadProducts fs g = (g, .ok false)) := by
  refine ⟨?_, ?_, ?_, ?_, ?_⟩
  · intro fs d p h
    unfold findFile
    rw [h]
    rfl
  · intro fs d p c cs h1 h2
    unfold findFile
    rw [h1, h2]
    rfl
  · intro fs fs2 d p h1 h2
    unfold findFile
    rw [h1, h2]
  · intro fs d p h1 h2
    unfold findFile
    rw [h1, h2]
    rfl
  · intro fs g h1 h2
    unfold loadProducts findFile
    have happ : ("data/" ++ "*product*.json" : String) = "data/*product*.json" := rfl
    rw [h1, happ, h2]
    rfl

/-- C8 (witness). -/
theorem claim_C8_witness :
    fsC1.pathExists "data/greenpower_products.json" = true
    ∧ findFile fsC1 "data/greenpower_products.json" "*product*.json"
        = some "data/greenpower_products.json"
    ∧ fsGlob.pathExists "data/greenpower_products.json" = false
    ∧ fsGlob.globMatches "data/*product*.json" = ["data/a_product.json", "data/b_product.json"]
    ∧ findFile fsGlob "data/greenpower_products.json" "*product*.json"
        = some "data/a_product.json"
    ∧ loadProducts fsAbsent gEmpty = (gEmpty, .ok false) :=
  ⟨by decide, claim_C8_find_file.1 fsC1 _ _ (by decide), rfl, rfl,
   claim_C8_find_file.2.1 fsGlob "data/greenpower_products.json" "*product*.json"
     "data/a_product.json" ["data/b_product.json"] rfl rfl,
   claim_C8_find_file.2.2.2.2 fsAbsent gEmpty rfl rfl⟩

/-- C9 (counterexample): on the input `"nan"`, `parse_revenue` returns
the float `nan`; feeding that result back returns `nan` again, but Python
`==` on `nan` is false, so the claimed equation
`parseAmount(parseAmount(x)) == parseAmount(x)` fails at `x = "nan"`. -/
theorem claim_C9_counterexample :
    parseRevenue (.jstr "nan") = .ok .nan
    ∧ parseRevenue (.jfloat .nan) = .ok .nan
    ∧ pyEqB .nan .nan = false := by
  refine ⟨by decide, rfl, rfl⟩

/-- C9 (amended): whenever `parse_revenue` returns a value, applying it
again to that value returns the same value (so the composition is stable
as a mathematical value), and the Python `==` form of the equation holds
whenever the returned value is not `nan`. -/
theorem claim_C9_idempotent_amended (x : JVal) (v : PyFloat)
    (h : parseRevenue x = .ok v) :
    parseRevenue (.jfloat v) = .ok v ∧ (v ≠ .nan → pyEqB v v = true) := by
  refine ⟨rfl, ?_⟩
  intro hv
  cases v with
  | finite q => simp [pyEqB]
  | inf => rfl
  | neginf => rfl
  | nan => exact absurd rfl hv

/-- C9 (witness). -/
theorem claim_C9_witness :
    parseRevenue (.jint 5) = .ok (.finite 5)
    ∧ parseRevenue (.jfloat (.finite 5)) = .ok (.finite 5)
    ∧ pyEqB (.finite 5) (.finite 5) = true :=
  ⟨rfl, (claim_C9_idempotent_amended (.jint 5) (.finite 5) rfl).1,
   (claim_C9_idempotent_amended (.jint 5) (.finite 5) rfl).2 (by decide)⟩

/-- C10: on every value that is neither numeric (in the `isinstance`
sense, under which a `bool` counts as an `int`) nor a string — such as
`None` or a list — `parse_revenue` raises `AttributeError` at the
`.replace` call, which sits before the `try` block; numeric values return
`float(x)` and strings always return a value, so the silent `0.0`
fallback is reachable only for string inputs. -/
theorem claim_C10_parse_revenue_raises (v : JVal) :
    (isNumericJ v = false → isStrJ v = false →
      parseRevenue v = .error (.attrError "replace"))
    ∧ (isNumericJ v = true → parseRevenue v = .ok (floatOfNumeric v))
    ∧ (isStrJ v = true → ∃ f, parseRevenue v = .ok f) := by
  refine ⟨?_, ?_, ?_⟩
  · intro h1 h2
    cases v <;> simp_all [isNumericJ, isStrJ, parseRevenue]
  · intro h
    cases v <;> simp_all [isNumericJ, parseRevenue, floatOfNumeric]
  · intro h
    cases v with
    | jstr s =>
      unfold parseRevenue
      dsimp only
      cases hp : pyFloatParse (cleanRevenue s) with
      | none => exact ⟨.finite 0, rfl⟩
      | some f => exact ⟨f, rfl⟩
    | jnull => simp [isStrJ] at h
    | jbool b => simp [isStrJ] at h
    | jint n => simp [isStrJ] at h
    | jfloat f => simp [isStrJ] at h
    | jarrNil => simp [isStrJ] at h
    | jarrCons a b => simp [isStrJ] at h
    | jobjNil => simp [isStrJ] at h
    | jobjCons k a b => simp [isStrJ] at h

/-- C10 (witness). -/
theorem claim_C10_witness :
    isNumericJ JVal.jnull = false ∧ isStrJ JVal.jnull = false
    ∧ parseRevenue JVal.jnull = .error (.attrError "replace")
    ∧ parseRevenue (.jint 3) = .ok (floatOfNumeric (.jint 3))
    ∧ ∃ f, parseRevenue (.jstr "zzz") = .ok f :=
  ⟨rfl, rfl, (claim_C10_parse_revenue_raises JVal.jnull).1 rfl rfl,
   (claim_C10_parse_revenue_raises (.jint 3)).2.1 rfl,
   (claim_C10_parse_revenue_raises (.jstr "zzz")).2.2 rfl⟩

/-- C5 (counterexample): the sale shorthand `"PG-M01 xabc"` splits on
`" x"` into exactly two parts whose second part is not an integer, so it
does not match the `"<identifier> x<integer>"` format; the claim says such
an entry is skipped with no error, but `int(parts[1])` raises an uncaught
`ValueError`, aborting the trade-show load. -/
theorem claim_C5_counterexample :
    jSplitX (.jstr "PG-M01 xabc") = .ok ["PG-M01", "abc"]
    ∧ pyIntParse "abc" = none
    ∧ (loadTradeShow tsRecC5 gEmpty).2 = .error (.valueError "abc") := by
  refine ⟨by decide, by decide, by decide⟩

/-- C5 (amended): a sale shorthand entry whose split on `" x"` yields a
number of parts different from two is skipped — the graph is unchanged
and no error is raised; a two-part entry whose second part parses as an
integer merges the `INCLUDES_PRODUCT` relationship; a two-part entry
whose second part is not an integer raises `ValueError` instead of being
skipped. -/
theorem claim_C5_shorthand_skip (g : Graph) (sid : JVal) (s : String) :
    (∀ parts : List String, jSplitX (.jstr s) = .ok parts → parts.length ≠ 2 →
       processSaleProduct sid (.jstr s) g = (g, .ok ()))
    ∧ (∀ pid qs : String, ∀ q : Int, jSplitX (.jstr s) = .ok [pid, qs] →
       pyIntParse qs = some q →
       processSaleProduct sid (.jstr s) g
         = (mergeRelMM g "Sale" sid "INCLUDES_PRODUCT" [("quantity", .jint q)]
             "Product" (.jstr pid), .ok ()))
    ∧ (∀ pid qs : String, jSplitX (.jstr s) = .ok [pid, qs] → pyIntParse qs = none →
       (processSaleProduct sid (.jstr s) g).2 = .error (.valueError qs)) := by
  refine ⟨?_, ?_, ?_⟩
  · intro parts hp hlen
    unfold processSaleProduct
    rw [hp]
    match parts, hlen with
    | [], _ => rfl
    | [a], _ => rfl
    | [a, b], hlen => exact absurd rfl hlen
    | a :: b :: c :: t, _ => rfl
  · intro pid qs q hp hq
    unfold processSaleProduct
    rw [hp]
    dsimp only
    rw [hq]
  · intro pid qs hp hq
    unfold processSaleProduct
    rw [hp]
    dsimp only
    rw [hq]

/-- C5 (witness). -/
theorem claim_C5_witness :
    (jSplitX (.jstr "PG-U01") = .ok ["PG-U01"]
      ∧ (["PG-U01"] : List String).length ≠ 2
      ∧ processSaleProduct (.jstr "S1") (.jstr "PG-U01") gEmpty = (gEmpty, .ok ()))
    ∧ (jSplitX (.jstr "PG xq") = .ok ["PG", "q"] ∧ pyIntParse "q" = none
      ∧ (processSaleProduct (.jstr "S1") (.jstr "PG xq") gEmpty).2
          = .error (.valueError "q")) :=
  ⟨⟨rfl, by decide,
    (claim_C5_shorthand_skip gEmpty (.jstr "S1") "PG-U01").1 ["PG-U01"] rfl (by decide)⟩,
   ⟨rfl, by decide,
    (claim_C5_shorthand_skip gEmpty (.jstr "S1") "PG xq").2.2 "PG" "q" rfl (by decide)⟩⟩

/-- C6 (counterexample): the `models_used` entry `"PG-U01 xq"` splits on
`" x"` into exactly two parts, so by the claim a `DEPLOYED_AT`
relationship with the parsed quantity should be upserted; instead
`int("q")` raises an uncaught `ValueError` and no relationship is
created, even though both endpoint nodes exist. -/
theorem claim_C6_counterexample :
    jSplitX (.jstr "PG-U01 xq") = .ok ["PG-U01", "q"]
    ∧ (loadPoweredEvent peRecC6 gProdEvent).2 = .error (.valueError "q")
    ∧ relCount (loadPoweredEvent peRecC6 gProdEvent).1 "DEPLOYED_AT" = 0 := by
  refine ⟨by decide, by decide, by decide⟩

/-- C6 (amended): a `models_used` entry splitting on `" x"` into exactly
two parts with an integer second part performs the `DEPLOYED_AT` merge
with that quantity (the relationship materializes exactly when both
endpoint nodes exist); an entry splitting into a number of parts
different from two is treated as a bare product id and merged with
quantity 1; a two-part entry with a non-integer second part raises
`ValueError`. -/
theorem claim_C6_deployed_at (g : Graph) (eid : JVal) (s : String) :
    (∀ pid qs : String, ∀ q : Int, jSplitX (.jstr s) = .ok [pid, qs] →
       pyIntParse qs = some q →
       processModelStr eid (.jstr s) g
         = (mergeRelMM g "Product" (.jstr pid) "DEPLOYED_AT" [("quantity", .jint q)]
             "Event" eid, .ok ())
       ∧ (hasNodeB g "Product" (.jstr pid) = true → hasNodeB g "Event" eid = true →
          ∃ r, findRel (processModelStr eid (.jstr s) g).1 "Product" (.jstr pid)
              "DEPLOYED_AT" "Event" eid = some r
            ∧ lookupProp r.props "quantity" = some (.jint q)))
    ∧ (∀ parts : List String, jSplitX (.jstr s) = .ok parts → parts.length ≠ 2 →
       processModelStr eid (.jstr s) g
         = (mergeRelMM g "Product" (.jstr s) "DEPLOYED_AT" [("quantity", .jint 1)]
             "Event" eid, .ok ())
       ∧ (hasNodeB g "Product" (.jstr s) = true → hasNodeB g "Event" eid = true →
          ∃ r, findRel (processModelStr eid (.jstr s) g).1 "Product" (.jstr s)
              "DEPLOYED_AT" "Event" eid = some r
            ∧ lookupProp r.props "quantity" = some (.jint 1)))
    ∧ (∀ pid qs : String, jSplitX (.jstr s) = .ok [pid, qs] → pyIntParse qs = none →
       (processModelStr eid (.jstr s) g).2 = .error (.valueError qs)) := by
  refine ⟨?_, ?_, ?_⟩
  · intro pid qs q hp hq
    have heq : processModelStr eid (.jstr s) g
        = (mergeRelMM g "Product" (.jstr pid) "DEPLOYED_AT" [("quantity", .jint q)]
            "Event" eid, .ok ()) := by
      unfold processModelStr
      rw [hp]
      dsimp only
      rw [hq]
    refine ⟨heq, ?_⟩
    intro hs hd
    rw [heq]
    obtain ⟨r, hr, base, hprops⟩ := findRel_mergeRelMM_self g "Product" (.jstr pid)
      "DEPLOYED_AT" [("quantity", .jint q)] "Event" eid hs hd
    refine ⟨r, hr, ?_⟩
    rw [hprops]
    exact lookupProp_setProp_self base "quantity" (.jint q)
  · intro parts hp hlen
    have heq : processModelStr eid (.jstr s) g
        = (mergeRelMM g "Product" (.jstr s) "DEPLOYED_AT" [("quantity", .jint 1)]
            "Event" eid, .ok ()) := by
      unfold processModelStr
      rw [hp]
      match parts, hlen with
      | [], _ => rfl
      | [a], _ => rfl
      | [a, b], hlen => exact absurd rfl hlen
      | a :: b :: c :: t, _ => rfl
    refine ⟨heq, ?_⟩
    intro hs hd
    rw [heq]
    obtain ⟨r, hr, base, hprops⟩ := findRel_mergeRelMM_self g "Product" (.jstr s)
      "DEPLOYED_AT" [("quantity", .jint 1)] "Event" eid hs hd
    refine ⟨r, hr, ?_⟩
    rw [hprops]
    exact lookupProp_setProp_self base "quantity" (.jint 1)
  · intro pid qs hp hq
    unfold processModelStr
    rw [hp]
    dsimp only
    rw [hq]

/-- C6 (witness). -/
theorem claim_C6_witness :
    jSplitX (.jstr "PG-U01 x2") = .ok ["PG-U01", "2"]
    ∧ pyIntParse "2" = some 2
    ∧ hasNodeB gProdEvent "Product" (.jstr "PG-U01") = true
    ∧ hasNodeB gProdEvent "Event" (.jstr "PE1") = true
    ∧ (∃ r, findRel (processModelStr (.jstr "PE1") (.jstr "PG-U01 x2") gProdEvent).1
          "Product" (.jstr "PG-U01") "DEPLOYED_AT" "Event" (.jstr "PE1") = some r
        ∧ lookupProp r.props "quantity" = some (.jint 2)) :=
  ⟨rfl, by decide, rfl, rfl,
   ((claim_C6_deployed_at gProdEvent (.jstr "PE1") "PG-U01 x2").1 "PG-U01" "2" 2
     rfl (by decide)).2 rfl rfl⟩

/-! Helpers for the trade-show observation and Sale-origin lemmas. -/

/-- Node membership depends only on the node list. -/
theorem hasNodeB_of_nodes_eq (g g2 : Graph) (h : g2.nodes = g.nodes) (L : String) (v : JVal) :
    hasNodeB g2 L v = hasNodeB g L v := by
  unfold hasNodeB
  rw [h]

/-- Node lookup depends only on the node list. -/
theorem findNode_of_nodes_eq (g g2 : Graph) (h : g2.nodes = g.nodes) (L : String) (v : JVal) :
    findNode g2 L v = findNode g L v := by
  unfold findNode
  rw [h]

/-- A graph property preserved by each step of a fold is preserved by the
fold. -/
theorem foldl_graph_pres {β : Type} (f : Graph → β → Graph) (P : Graph → Prop)
    (hf : ∀ g b, P g → P (f g b)) : ∀ (l : List β) (g : Graph), P g → P (l.foldl f g) := by
  intro l
  induction l with
  | nil => intro g hg; exact hg
  | cons b rest ih =>
    intro g hg
    exact ih (f g b) (hf g b hg)

/-- Processing one sale shorthand never changes the node set. -/
theorem processSaleProduct_nodes (sid item : JVal) (g : Graph) :
    ((processSaleProduct sid item g).1).nodes = g.nodes := by
  unfold processSaleProduct
  cases hx : jSplitX item with
  | error e => rfl
  | ok parts =>
    match parts with
    | [] => rfl
    | [a] => rfl
    | [a, b] =>
      dsimp only
      cases hq : pyIntParse b with
      | none => rfl
      | some q =>
        exact nodes_mergeRelMM g "Sale" sid "INCLUDES_PRODUCT" [("quantity", .jint q)]
          "Product" (.jstr a)
    | a :: b :: c :: t => rfl

/-- Processing one sale shorthand preserves the TradeShow lookup, the
displayed-at count, and the endpoint invariant. -/
theorem processSaleProduct_obs (sid item : JVal) (g : Graph) (tv pid : JVal) :
    findNode ((processSaleProduct sid item g).1) "TradeShow" tv = findNode g "TradeShow" tv
    ∧ displayedAtCount ((processSaleProduct sid item g).1) pid = displayedAtCount g pid
    ∧ (endpointsOk g = true → endpointsOk ((processSaleProduct sid item g).1) = true) := by
  unfold processSaleProduct
  cases hx : jSplitX item with
  | error e => exact ⟨rfl, rfl, fun h => h⟩
  | ok parts =>
    match parts with
    | [] => exact ⟨rfl, rfl, fun h => h⟩
    | [a] => exact ⟨rfl, rfl, fun h => h⟩
    | [a, b] =>
      dsimp only
      cases hq : pyIntParse b with
      | none => exact ⟨rfl, rfl, fun h => h⟩
      | some q =>
        refine ⟨?_, ?_, ?_⟩
        · exact findNode_mergeRelMM g "Sale" sid "INCLUDES_PRODUCT" [("quantity", .jint q)]
            "Product" (.jstr a) "TradeShow" tv
        · exact displayedAtCount_mergeRelMM_ne g "Sale" sid "INCLUDES_PRODUCT"
            [("quantity", .jint q)] "Product" (.jstr a) pid (Or.inl (by decide))
        · exact fun h => endpointsOk_mergeRelMM g "Sale" sid "INCLUDES_PRODUCT"
            [("quantity", .jint q)] "Product" (.jstr a) h
    | a :: b :: c :: t => exact ⟨rfl, rfl, fun h => h⟩

/-- The sale-products loop never changes the node set. -/
theorem loadList_saleProducts_nodes (sid : JVal) (items : List JVal) (g : Graph) :
    ((loadList (processSaleProduct sid) items g).1).nodes = g.nodes :=
  loadList_preserves (processSaleProduct sid) (fun g2 => g2.nodes = g.nodes)
    (fun x g2 hg2 => by
      show ((processSaleProduct sid x g2).1).nodes = g.nodes
      rw [processSaleProduct_nodes]
      exact hg2) items g rfl

/-- The sale-products loop preserves the TradeShow lookup, the
displayed-at count, and the endpoint invariant. -/
theorem loadList_saleProducts_obs (sid : JVal) (items : List JVal) (g : Graph)
    (tv pid : JVal) :
    findNode ((loadList (processSaleProduct sid) items g).1) "TradeShow" tv
      = findNode g "TradeShow" tv
    ∧ displayedAtCount ((loadList (processSaleProduct sid) items g).1) pid
      = displayedAtCount g pid
    ∧ (endpointsOk g = true →
        endpointsOk ((loadList (processSaleProduct sid) items g).1) = true) :=
  loadList_preserves (processSaleProduct sid)
    (fun g2 => findNode g2 "TradeShow" tv = findNode g "TradeShow" tv
      ∧ displayedAtCount g2 pid = displayedAtCount g pid
      ∧ (endpointsOk g = true → endpointsOk g2 = true))
    (fun x g2 hg2 => by
      obtain ⟨o1, o2, o3⟩ := processSaleProduct_obs sid x g2 tv pid
      exact ⟨o1.trans hg2.1, o2.trans hg2.2.1, fun h => o3 (hg2.2.2 h)⟩)
    items g ⟨rfl, rfl, fun h => h⟩

/-- Processing one customer type preserves the TradeShow lookup, the
displayed-at count, and the endpoint invariant. -/
theorem processOneCT_obs (e eid : JVal) (ct : String) (g : Graph) (tv pid : JVal) :
    findNode ((processOneCT e eid ct g).1) "TradeShow" tv = findNode g "TradeShow" tv
    ∧ displayedAtCount ((processOneCT e eid ct g).1) pid = displayedAtCount g pid
    ∧ (endpointsOk g = true → endpointsOk ((processOneCT e eid ct g).1) = true) := by
  unfold processOneCT
  cases h1 : jGetItem e "sales_data" with
  | error err => exact ⟨rfl, rfl, fun h => h⟩
  | ok sd =>
  dsimp only
  cases h2 : jGetItem sd "sales_closed" with
  | error err => exact ⟨rfl, rfl, fun h => h⟩
  | ok sc =>
  dsimp only
  cases h3 : jGetAttrD sc ct (jdict []) with
  | error err => exact ⟨rfl, rfl, fun h => h⟩
  | ok sales =>
  dsimp only
  cases h4 : jGetAttrD sales "units" (.jint 0) with
  | error err => exact ⟨rfl, rfl, fun h => h⟩
  | ok u0 =>
  dsimp only
  cases h5 : pyGtZeroB u0 with
  | error err => exact ⟨rfl, rfl, fun h => h⟩
  | ok b =>
  cases b with
  | false => exact ⟨rfl, rfl, fun h => h⟩
  | true =>
  dsimp only
  cases h6 : jGetItem sales "units" with
  | error err => exact ⟨rfl, rfl, fun h => h⟩
  | ok u =>
  dsimp only
  cases h7 : jGetItem sales "total_revenue" with
  | error err => exact ⟨rfl, rfl, fun h => h⟩
  | ok trRaw =>
  dsimp only
  cases h8 : parseRevenue trRaw with
  | error err => exact ⟨rfl, rfl, fun h => h⟩
  | ok tr =>
  dsimp only
  have f1 := findNode_mergeNode_ne_label g "Sale" "sale_id" (.jstr (saleId (pyStr eid) ct))
    [("customer_type", .jstr ct), ("units", u), ("total_revenue", .jfloat tr)]
    "TradeShow" tv (by decide)
  have f2 := findNode_mergeRelMM
    (mergeNode g "Sale" "sale_id" (.jstr (saleId (pyStr eid) ct))
      [("customer_type", .jstr ct), ("units", u), ("total_revenue", .jfloat tr)])
    "Sale" (.jstr (saleId (pyStr eid) ct)) "SOLD_AT" [] "TradeShow" eid "TradeShow" tv
  have c1 := displayedAtCount_mergeNode g "Sale" "sale_id" (.jstr (saleId (pyStr eid) ct))
    [("customer_type", .jstr ct), ("units", u), ("total_revenue", .jfloat tr)] pid
  have c2 := displayedAtCount_mergeRelMM_ne
    (mergeNode g "Sale" "sale_id" (.jstr (saleId (pyStr eid) ct))
      [("customer_type", .jstr ct), ("units", u), ("total_revenue", .jfloat tr)])
    "Sale" (.jstr (saleId (pyStr eid) ct)) "SOLD_AT" [] "TradeShow" eid pid
    (Or.inl (by decide))
  have e1 := fun h => endpointsOk_mergeRelMM
    (mergeNode g "Sale" "sale_id" (.jstr (saleId (pyStr eid) ct))
      [("customer_type", .jstr ct), ("units", u), ("total_revenue", .jfloat tr)])
    "Sale" (.jstr (saleId (pyStr eid) ct)) "SOLD_AT" [] "TradeShow" eid
    (endpointsOk_mergeNode g "Sale" "sale_id" (.jstr (saleId (pyStr eid) ct))
      [("customer_type", .jstr ct), ("units", u), ("total_revenue", .jfloat tr)] h)
  cases h9 : jGetAttrD sales "products" (jlist []) with
  | error err => exact ⟨f2.trans f1, c2.trans c1, e1⟩
  | ok pv =>
  dsimp only
  cases h10 : jIterate pv with
  | error err => exact ⟨f2.trans f1, c2.trans c1, e1⟩
  | ok items =>
  dsimp only
  obtain ⟨o1, o2, o3⟩ := loadList_saleProducts_obs (.jstr (saleId (pyStr eid) ct)) items
    (mergeRelMM
      (mergeNode g "Sale" "sale_id" (.jstr (saleId (pyStr eid) ct))
        [("customer_type", .jstr ct), ("units", u), ("total_revenue", .jfloat tr)])
      "Sale" (.jstr (saleId (pyStr eid) ct)) "SOLD_AT" [] "TradeShow" eid) tv pid
  exact ⟨o1.trans (f2.trans f1), o2.trans (c2.trans c1), fun h => o3 (e1 h)⟩

/-- The derived sale identifier is injective on (event-id, customer-type)
pairs drawn from the fixed customer-type set: the three customer types
have pairwise distinct lengths and none is a suffix of another. -/
theorem saleId_inj (e1 e2 c1 c2 : String) (h1 : c1 ∈ custTypes) (h2 : c2 ∈ custTypes)
    (h : saleId e1 c1 = saleId e2 c2) : e1 = e2 ∧ c1 = c2 := by
  have hd : e1.data ++ ('_' :: c1.data) = e2.data ++ ('_' :: c2.data) := by
    have hcongr := congrArg String.data h
    simpa [saleId, String.data_append, List.append_assoc] using hcongr
  have hc : c1 = c2 := by
    have s1 : ('_' :: c1.data) <:+ (e2.data ++ ('_' :: c2.data)) := by
      rw [← hd]
      exact List.suffix_append _ _
    have s2 : ('_' :: c2.data) <:+ (e2.data ++ ('_' :: c2.data)) := List.suffix_append _ _
    have hor := List.suffix_or_suffix_of_suffix s1 s2
    simp only [custTypes, List.mem_cons, List.not_mem_nil, or_false] at h1 h2
    rcases h1 with h1 | h1 | h1 <;> rcases h2 with h2 | h2 | h2 <;> subst h1 <;> subst h2 <;>
      first
        | rfl
        | (rcases hor with hs | hs <;> exact absurd hs (by decide))
  subst hc
  refine ⟨?_, rfl⟩
  have he := List.append_cancel_right hd
  cases e1
  cases e2
  simp_all

/-- A node found by lookup is present. -/
theorem hasNodeB_of_findNode (g : Graph) (L : String) (v : JVal) (n : GNode)
    (h : findNode g L v = some n) : hasNodeB g L v = true := by
  unfold findNode at h
  unfold hasNodeB
  rw [List.any_eq_true]
  refine ⟨n, List.mem_of_find?_eq_some h, ?_⟩
  have hp := List.find?_some h
  simpa using hp

/-- The displayed-products fold leaves the node set unchanged, does not
add `DISPLAYED_AT` relationships whose source is an absent product id,
and preserves the endpoint invariant. -/
theorem displayed_fold_obs (pids : List JVal) (eid pid : JVal) (g : Graph)
    (habs : hasNodeB g "Product" pid = false) :
    ((pids.foldl (fun acc p2 =>
        mergeRelMM acc "Product" p2 "DISPLAYED_AT" [] "TradeShow" eid) g)).nodes = g.nodes
    ∧ displayedAtCount (pids.foldl (fun acc p2 =>
        mergeRelMM acc "Product" p2 "DISPLAYED_AT" [] "TradeShow" eid) g) pid
      = displayedAtCount g pid
    ∧ (endpointsOk g = true → endpointsOk (pids.foldl (fun acc p2 =>
        mergeRelMM acc "Product" p2 "DISPLAYED_AT" [] "TradeShow" eid) g) = true) :=
  foldl_graph_pres (fun acc p2 => mergeRelMM acc "Product" p2 "DISPLAYED_AT" [] "TradeShow" eid)
    (fun g2 => g2.nodes = g.nodes ∧ displayedAtCount g2 pid = displayedAtCount g pid
      ∧ (endpointsOk g = true → endpointsOk g2 = true))
    (fun g2 p2 hg2 => by
      dsimp only
      obtain ⟨hn, hc, he⟩ := hg2
      by_cases hp2 : p2 = pid
      · subst hp2
        have habs2 : hasNodeB g2 "Product" p2 = false := by
          unfold hasNodeB
          rw [hn]
          exact habs
        rw [mergeRelMM_noop_src g2 "Product" p2 "DISPLAYED_AT" [] "TradeShow" eid habs2]
        exact ⟨hn, hc, he⟩
      · refine ⟨(nodes_mergeRelMM _ _ _ _ _ _ _).trans hn, ?_, ?_⟩
        · rw [displayedAtCount_mergeRelMM_ne g2 "Product" p2 "DISPLAYED_AT" [] "TradeShow" eid
            pid (Or.inr hp2)]
          exact hc
        · exact fun h => endpointsOk_mergeRelMM g2 "Product" p2 "DISPLAYED_AT" [] "TradeShow"
            eid (he h))
    pids g ⟨rfl, rfl, fun h => h⟩

/-- A Sale node present after processing one customer type was either
present before, or is exactly the sale derived for this customer type,
created because its recorded unit count was positive. -/
theorem processOneCT_sale_rev (e eid : JVal) (ct : String) (g : Graph) (sid : JVal)
    (h : hasNodeB ((processOneCT e eid ct g).1) "Sale" sid = true) :
    hasNodeB g "Sale" sid = true
    ∨ (sid = .jstr (saleId (pyStr eid) ct) ∧ unitsPos e ct = true) := by
  unfold processOneCT at h
  cases h1 : jGetItem e "sales_data" with
  | error err => rw [h1] at h; exact Or.inl h
  | ok sd =>
  rw [h1] at h
  dsimp only at h
  cases h2 : jGetItem sd "sales_closed" with
  | error err => rw [h2] at h; exact Or.inl h
  | ok sc =>
  rw [h2] at h
  dsimp only at h
  cases h3 : jGetAttrD sc ct (jdict []) with
  | error err => rw [h3] at h; exact Or.inl h
  | ok sales =>
  rw [h3] at h
  dsimp only at h
  cases h4 : jGetAttrD sales "units" (.jint 0) with
  | error err => rw [h4] at h; exact Or.inl h
  | ok u0 =>
  rw [h4] at h
  dsimp only at h
  cases h5 : pyGtZeroB u0 with
  | error err => rw [h5] at h; exact Or.inl h
  | ok b =>
  rw [h5] at h
  cases b with
  | false => exact Or.inl h
  | true =>
  dsimp only at h
  cases h6 : jGetItem sales "units" with
  | error err => rw [h6] at h; exact Or.inl h
  | ok u =>
  rw [h6] at h
  dsimp only at h
  cases h7 : jGetItem sales "total_revenue" with
  | error err => rw [h7] at h; exact Or.inl h
  | ok trRaw =>
  rw [h7] at h
  dsimp only at h
  cases h8 : parseRevenue trRaw with
  | error err => rw [h8] at h; exact Or.inl h
  | ok tr =>
  rw [h8] at h
  dsimp only at h
  have hu : unitsPos e ct = true := by
    unfold unitsPos extractUnitsFlag
    rw [h1]
    dsimp only
    rw [h2]
    dsimp only
    rw [h3]
    dsimp only
    rw [h4]
    dsimp only
    rw [h5]
  cases h9 : jGetAttrD sales "products" (jlist []) with
  | error err =>
    rw [h9] at h
    dsimp only at h
    rw [hasNodeB_mergeRelMM] at h
    rcases hasNodeB_mergeNode_rev _ _ _ _ _ _ _ h with hold | ⟨_, hsid⟩
    · exact Or.inl hold
    · exact Or.inr ⟨hsid, hu⟩
  | ok pv =>
  rw [h9] at h
  dsimp only at h
  cases h10 : jIterate pv with
  | error err =>
    rw [h10] at h
    dsimp only at h
    rw [hasNodeB_mergeRelMM] at h
    rcases hasNodeB_mergeNode_rev _ _ _ _ _ _ _ h with hold | ⟨_, hsid⟩
    · exact Or.inl hold
    · exact Or.inr ⟨hsid, hu⟩
  | ok items =>
  rw [h10] at h
  dsimp only at h
  rw [hasNodeB_of_nodes_eq _ _ (loadList_saleProducts_nodes _ items _)] at h
  rw [hasNodeB_mergeRelMM] at h
  rcases hasNodeB_mergeNode_rev _ _ _ _ _ _ _ h with hold | ⟨_, hsid⟩
  · exact Or.inl hold
  · exact Or.inr ⟨hsid, hu⟩

/-- A Sale node present after the customer-type loop was either present
before the loop or derives from one of the enumerated customer types with
a positive unit count. -/
theorem loadList_CT_sale_rev (e eid sid : JVal) :
    ∀ (cts : List String) (g : Graph),
      hasNodeB ((loadList (processOneCT e eid) cts g).1) "Sale" sid = true →
      hasNodeB g "Sale" sid = true
      ∨ ∃ ct ∈ cts, sid = .jstr (saleId (pyStr eid) ct) ∧ unitsPos e ct = true := by
  intro cts
  induction cts with
  | nil => intro g h; exact Or.inl h
  | cons ct rest ih =>
    intro g h
    unfold loadList at h
    cases hfx : processOneCT e eid ct g with
    | mk g1 r =>
    rw [hfx] at h
    cases r with
    | error err =>
      dsimp only at h
      have h1 : hasNodeB ((processOneCT e eid ct g).1) "Sale" sid = true := by
        rw [hfx]
        exact h
      rcases processOneCT_sale_rev e eid ct g sid h1 with hold | ⟨hs, hu⟩
      · exact Or.inl hold
      · exact Or.inr ⟨ct, List.mem_cons_self ct rest, hs, hu⟩
    | ok u =>
      dsimp only at h
      rcases ih g1 h with hold | ⟨ct2, hct2, hs, hu⟩
      · have h1 : hasNodeB ((processOneCT e eid ct g).1) "Sale" sid = true := by
          rw [hfx]
          exact hold
        rcases processOneCT_sale_rev e eid ct g sid h1 with hold2 | ⟨hs, hu⟩
        · exact Or.inl hold2
        · exact Or.inr ⟨ct, List.mem_cons_self ct rest, hs, hu⟩
      · exact Or.inr ⟨ct2, List.mem_cons_of_mem ct hct2, hs, hu⟩

/-- Observational facts about loading one trade-show record whose header
and displayed-list extractions succeed, when a displayed product id has no
Product node: the TradeShow node exists with its mapped properties, no
`DISPLAYED_AT` relationship is added for the absent id, and the endpoint
invariant is preserved. -/
theorem loadTradeShow_obs (g : Graph) (e : JVal) (hd : TSHeader) (pid : JVal)
    (hh : extractTSHeader e = .ok hd) (pids : List JVal)
    (hdisp : extractDisplayed e = .ok pids)
    (habs : hasNodeB g "Product" pid = false) :
    hasNodeB ((loadTradeShow e g).1) "TradeShow" hd.event_id = true
    ∧ (∃ n, findNode ((loadTradeShow e g).1) "TradeShow" hd.event_id = some n
        ∧ lookupProp n.props "name" = some hd.name
        ∧ lookupProp n.props "total_sales" = some (.jfloat hd.totalSales))
    ∧ displayedAtCount ((loadTradeShow e g).1) pid = displayedAtCount g pid
    ∧ (endpointsOk g = true → endpointsOk ((loadTradeShow e g).1) = true) := by
  have hshape : loadTradeShow e g
      = loadList (processOneCT e hd.event_id) custTypes
          (pids.foldl (fun acc p2 =>
              mergeRelMM acc "Product" p2 "DISPLAYED_AT" [] "TradeShow" hd.event_id)
            (mergeNode g "TradeShow" "event_id" hd.event_id (tsProps hd))) := by
    unfold loadTradeShow
    rw [hh]
    dsimp only
    rw [hdisp]
  rw [hshape]
  obtain ⟨n, hn, base, hprops⟩ :=
    findNode_mergeNode_self g "TradeShow" "event_id" hd.event_id (tsProps hd)
  have hname : lookupProp n.props "name" = some hd.name := by
    rw [hprops]
    unfold tsProps setProps
    simp only [List.foldl]
    rw [lookupProp_setProp_other _ _ _ _ (by decide), lookupProp_setProp_other _ _ _ _ (by decide),
      lookupProp_setProp_other _ _ _ _ (by decide), lookupProp_setProp_other _ _ _ _ (by decide),
      lookupProp_setProp_other _ _ _ _ (by decide)]
    exact lookupProp_setProp_self _ _ _
  have htot : lookupProp n.props "total_sales" = some (.jfloat hd.totalSales) := by
    rw [hprops]
    unfold tsProps setProps
    simp only [List.foldl]
    exact lookupProp_setProp_self _ _ _
  have habs1 : hasNodeB (mergeNode g "TradeShow" "event_id" hd.event_id (tsProps hd))
      "Product" pid = false := by
    rw [hasNodeB_mergeNode_ne_label _ _ _ _ _ _ _ (by decide)]
    exact habs
  obtain ⟨fn, fc, fe⟩ := displayed_fold_obs pids hd.event_id pid
    (mergeNode g "TradeShow" "event_id" hd.event_id (tsProps hd)) habs1
  have hP := loadList_preserves (processOneCT e hd.event_id)
    (fun g2 => findNode g2 "TradeShow" hd.event_id = some n
      ∧ displayedAtCount g2 pid = displayedAtCount g pid
      ∧ (endpointsOk g = true → endpointsOk g2 = true))
    (fun ct g2 hg2 => by
      obtain ⟨o1, o2, o3⟩ := processOneCT_obs e hd.event_id ct g2 hd.event_id pid
      exact ⟨o1.trans hg2.1, o2.trans hg2.2.1, fun h => o3 (hg2.2.2 h)⟩)
    custTypes
    (pids.foldl (fun acc p2 =>
        mergeRelMM acc "Product" p2 "DISPLAYED_AT" [] "TradeShow" hd.event_id)
      (mergeNode g "TradeShow" "event_id" hd.event_id (tsProps hd)))
    ⟨by rw [findNode_of_nodes_eq _ _ fn]; exact hn,
     by rw [fc, displayedAtCount_mergeNode],
     fun h => fe (endpointsOk_mergeNode _ _ _ _ _ h)⟩
  obtain ⟨p1, p2, p3⟩ := hP
  exact ⟨hasNodeB_of_findNode _ _ _ _ p1, ⟨n, p1, hname, htot⟩, p2, p3⟩

/-- C3: a trade-show record listing a displayed product id with no
existing Product node still gets its TradeShow node upserted with its
mapped properties, zero `DISPLAYED_AT` relationships are created for the
missing id, no error is raised, and relationship creation continues to
hold only between existing endpoint nodes (the endpoint invariant is
preserved). -/
theorem claim_C3_missing_displayed_product (g : Graph) (e : JVal) (hd : TSHeader) (pid : JVal)
    (hwf : extractTSUnit e = .ok ())
    (hh : extractTSHeader e = .ok hd)
    (_hmem : pid ∈ displayedOf e)
    (habs : hasNodeB g "Product" pid = false) :
    (loadTradeShow e g).2 = .ok ()
    ∧ hasNodeB ((loadTradeShow e g).1) "TradeShow" hd.event_id = true
    ∧ (∃ n, findNode ((loadTradeShow e g).1) "TradeShow" hd.event_id = some n
        ∧ lookupProp n.props "name" = some hd.name
        ∧ lookupProp n.props "total_sales" = some (.jfloat hd.totalSales))
    ∧ displayedAtCount ((loadTradeShow e g).1) pid = displayedAtCount g pid
    ∧ (endpointsOk g = true → endpointsOk ((loadTradeShow e g).1) = true) := by
  have hdp : ∃ pids, extractDisplayed e = .ok pids := by
    unfold extractTSUnit at hwf
    rw [hh] at hwf
    dsimp only at hwf
    cases hx : extractDisplayed e with
    | error err => rw [hx] at hwf; simp at hwf
    | ok pids => exact ⟨pids, rfl⟩
  obtain ⟨pids, hdisp⟩ := hdp
  obtain ⟨o1, o2, o3, o4⟩ := loadTradeShow_obs g e hd pid hh pids hdisp habs
  exact ⟨loadTradeShow_ok e g hwf, o1, o2, o3, o4⟩

/-- C3 (witness). -/
theorem claim_C3_witness :
    extractTSUnit tsRecW = .ok ()
    ∧ extractTSHeader tsRecW = .ok tsHeaderW
    ∧ (JVal.jstr "PG-M01") ∈ displayedOf tsRecW
    ∧ hasNodeB gEmpty "Product" (.jstr "PG-M01") = false
    ∧ ((loadTradeShow tsRecW gEmpty).2 = .ok ()
       ∧ hasNodeB ((loadTradeShow tsRecW gEmpty).1) "TradeShow" tsHeaderW.event_id = true
       ∧ (∃ n, findNode ((loadTradeShow tsRecW gEmpty).1) "TradeShow" tsHeaderW.event_id
             = some n
           ∧ lookupProp n.props "name" = some tsHeaderW.name
           ∧ lookupProp n.props "total_sales" = some (.jfloat tsHeaderW.totalSales))
       ∧ displayedAtCount ((loadTradeShow tsRecW gEmpty).1) (.jstr "PG-M01")
           = displayedAtCount gEmpty (.jstr "PG-M01")
       ∧ (endpointsOk gEmpty = true →
           endpointsOk ((loadTradeShow tsRecW gEmpty).1) = true)) :=
  ⟨rfl, rfl, by decide, rfl,
   claim_C3_missing_displayed_product gEmpty tsRecW tsHeaderW (.jstr "PG-M01")
     rfl rfl (by decide) rfl⟩

/-- C7: the derived sale id `event_id + "_" + customer_type` is a pure
function of its inputs and injective across (event-id, customer-type)
pairs drawn from the fixed customer-type set; and a Sale node newly
present after loading a trade-show record exists only when the recorded
unit count for that customer type is greater than zero. -/
theorem claim_C7_sale_id :
    (∀ e1 e2 c1 c2 : String, c1 ∈ custTypes → c2 ∈ custTypes →
      saleId e1 c1 = saleId e2 c2 → e1 = e2 ∧ c1 = c2)
    ∧ (∀ (g : Graph) (e : JVal) (hd : TSHeader) (ct : String),
      extractTSHeader e = .ok hd → ct ∈ custTypes →
      hasNodeB ((loadTradeShow e g).1) "Sale"
        (.jstr (saleId (pyStr hd.event_id) ct)) = true →
      hasNodeB g "Sale" (.jstr (saleId (pyStr hd.event_id) ct)) = false →
      unitsPos e ct = true) := by
  refine ⟨saleId_inj, ?_⟩
  intro g e hd ct hh hct hnew hold
  unfold loadTradeShow at hnew
  rw [hh] at hnew
  dsimp only at hnew
  cases hx : extractDisplayed e with
  | error err =>
    rw [hx] at hnew
    dsimp only at hnew
    rcases hasNodeB_mergeNode_rev _ _ _ _ _ _ _ hnew with hold2 | ⟨hlab, _⟩
    · exact absurd hold2 (by rw [hold]; simp)
    · exact absurd hlab (by decide)
  | ok pids =>
  rw [hx] at hnew
  dsimp only at hnew
  have hfoldnodes : ((pids.foldl (fun acc p2 =>
      mergeRelMM acc "Product" p2 "DISPLAYED_AT" [] "TradeShow" hd.event_id)
      (mergeNode g "TradeShow" "event_id" hd.event_id (tsProps hd)))).nodes
      = (mergeNode g "TradeShow" "event_id" hd.event_id (tsProps hd)).nodes :=
    foldl_graph_pres _
      (fun g2 => g2.nodes = (mergeNode g "TradeShow" "event_id" hd.event_id (tsProps hd)).nodes)
      (fun g2 p2 hg2 => by
        dsimp only
        exact (nodes_mergeRelMM _ _ _ _ _ _ _).trans hg2)
      pids _ rfl
  rcases loadList_CT_sale_rev e hd.event_id (.jstr (saleId (pyStr hd.event_id) ct))
      custTypes _ hnew with hold2 | ⟨ct2, hct2, hs, hu⟩
  · rw [hasNodeB_of_nodes_eq _ _ hfoldnodes] at hold2
    rcases hasNodeB_mergeNode_rev _ _ _ _ _ _ _ hold2 with hold3 | ⟨hlab, _⟩
    · exact absurd hold3 (by rw [hold]; simp)
    · exact absurd hlab (by decide)
  · have hseq : saleId (pyStr hd.event_id) ct = saleId (pyStr hd.event_id) ct2 := by
      have := hs
      simpa using this
    have hcteq := (saleId_inj _ _ _ _ hct hct2 hseq).2
    rw [hcteq]
    exact hu

/-- C7 (witness). -/
theorem claim_C7_witness :
    (("particuliers" : String) ∈ custTypes
      ∧ saleId "EV1" "particuliers" = saleId "EV1" "particuliers"
      ∧ ("EV1" = "EV1" ∧ ("particuliers" : String) = "particuliers"))
    ∧ (extractTSHeader tsRecW = .ok tsHeaderW
      ∧ hasNodeB ((loadTradeShow tsRecW gEmpty).1) "Sale"
          (.jstr (saleId (pyStr tsHeaderW.event_id) "particuliers")) = true
      ∧ hasNodeB gEmpty "Sale"
          (.jstr (saleId (pyStr tsHeaderW.event_id) "particuliers")) = false
      ∧ unitsPos tsRecW "particuliers" = true) :=
  ⟨⟨by decide, rfl,
    claim_C7_sale_id.1 "EV1" "EV1" "particuliers" "particuliers" (by decide) (by decide) rfl⟩,
   ⟨rfl, by decide, rfl,
    claim_C7_sale_id.2 gEmpty tsRecW tsHeaderW "particuliers" rfl (by decide) (by decide) rfl⟩⟩
